import Mathlib

/-!
Verification of the palette-derivation core of
`src/lib/sync_starship_ghostty_palette.py`.

The numeric layer of the source operates on Python floats; it is modelled
here over the real numbers: the sRGB transfer function's fractional powers
become `Real.rpow`, and Python's round-half-to-even becomes `pyRound`.
Strings and hex parsing are modelled directly over `String` / `List Char`.
Decidable string functions are computable; the real-valued pipeline is
noncomputable (as any faithful exact-real model must be) and concrete
evaluations are established by rational bounds on the fractional powers.
-/

noncomputable section

/-- Python's built-in round: round half to even (banker's rounding),
modelled on exact reals. -/
def pyRound (x : ℝ) : ℤ :=
  if Int.fract x = 1 / 2 then (if Even ⌊x⌋ then ⌊x⌋ else ⌊x⌋ + 1) else round x

lemma pyRound_intCast (n : ℤ) : pyRound (n : ℝ) = n := by
  unfold pyRound
  rw [Int.fract_intCast]
  norm_num

lemma abs_pyRound_sub (x : ℝ) : |(pyRound x : ℝ) - x| ≤ 1 / 2 := by
  unfold pyRound
  by_cases h : Int.fract x = 1 / 2
  · have hx : x - ⌊x⌋ = 1 / 2 := by
      have := h
      rwa [Int.fract] at this
    rw [if_pos h]
    by_cases he : Even ⌊x⌋
    · rw [if_pos he]
      rw [abs_le]
      constructor <;> linarith
    · rw [if_neg he]
      rw [abs_le]
      push_cast
      constructor <;> linarith
  · rw [if_neg h, abs_sub_comm]
    exact abs_sub_round x

lemma pyRound_eq_of (n : ℤ) (x : ℝ) (h1 : (n : ℝ) - 1 / 2 < x) (h2 : x < (n : ℝ) + 1 / 2) :
    pyRound x = n := by
  have h := abs_pyRound_sub x
  rw [abs_le] at h
  have hlt : ((pyRound x : ℤ) : ℝ) < (n : ℝ) + 1 := by linarith
  have hgt : ((n : ℤ) : ℝ) - 1 < ((pyRound x : ℤ) : ℝ) := by linarith
  have hlt2 : pyRound x < n + 1 := by exact_mod_cast hlt
  have hgt2 : n - 1 < pyRound x := by exact_mod_cast hgt
  omega

lemma pyRound_range (x : ℝ) (lo hi : ℤ) (h1 : (lo : ℝ) ≤ x) (h2 : x ≤ (hi : ℝ)) :
    lo ≤ pyRound x ∧ pyRound x ≤ hi := by
  have h := abs_pyRound_sub x
  rw [abs_le] at h
  have hlt : ((pyRound x : ℤ) : ℝ) < (hi : ℝ) + 1 := by linarith
  have hgt : ((lo : ℤ) : ℝ) - 1 < ((pyRound x : ℤ) : ℝ) := by linarith
  have hlt2 : pyRound x < hi + 1 := by exact_mod_cast hlt
  have hgt2 : lo - 1 < pyRound x := by exact_mod_cast hgt
  omega

lemma pyRound_191_5 : pyRound (191.5 : ℝ) = 192 := by
  have hf : ⌊(191.5 : ℝ)⌋ = 191 := by
    rw [Int.floor_eq_iff]
    norm_num
  unfold pyRound
  rw [Int.fract, hf]
  norm_num
  decide

end

/-! ### String / hex layer (ColorCodec) -/

/-- The sixteen lowercase hex digits, in value order. -/
def hexDigits : List Char := "0123456789abcdef".toList

/-- The regex class `[0-9a-fA-F]` of `HEX_RE`, written extensionally. -/
def isHexDigitCh (c : Char) : Bool :=
  c = '0' || c = '1' || c = '2' || c = '3' || c = '4' || c = '5' || c = '6' ||
  c = '7' || c = '8' || c = '9' || c = 'a' || c = 'b' || c = 'c' || c = 'd' ||
  c = 'e' || c = 'f' || c = 'A' || c = 'B' || c = 'C' || c = 'D' || c = 'E' || c = 'F'

/-- Lowercase hex digit test (used by the canonical-form predicate). -/
def lowerHex (c : Char) : Bool :=
  c = '0' || c = '1' || c = '2' || c = '3' || c = '4' || c = '5' || c = '6' ||
  c = '7' || c = '8' || c = '9' || c = 'a' || c = 'b' || c = 'c' || c = 'd' ||
  c = 'e' || c = 'f'

/-- Python str.lower(), restricted to the hex-digit domain on which the
source applies it (the characters matched by the regex group). -/
def hexLower (c : Char) : Char :=
  if c = 'A' then 'a' else if c = 'B' then 'b' else if c = 'C' then 'c'
  else if c = 'D' then 'd' else if c = 'E' then 'e' else if c = 'F' then 'f' else c

/-- Whitespace stripped by Python str.strip(). -/
def isPySpace (c : Char) : Bool :=
  c = ' ' || c = '\t' || c = '\n' || c = '\r' || c = '\x0b' || c = '\x0c'

/-- Python value.strip(). -/
def pyStrip (s : String) : String :=
  String.mk (((s.toList.dropWhile isPySpace).reverse.dropWhile isPySpace).reverse)

/-- normalize_hex: strip whitespace, match the anchored pattern of six hex
digits after a hash, return the lowercased canonical form, else None. -/
def normalize_hex (s : String) : Option String :=
  match (pyStrip s).toList with
  | '#' :: cs =>
      if cs.length = 6 && cs.all isHexDigitCh then
        some (String.mk ('#' :: cs.map hexLower))
      else none
  | _ => none

/-- Canonical color form: a hash followed by exactly six lowercase hex
digits. -/
def isCanonHex (s : String) : Bool :=
  match s.toList with
  | '#' :: cs => cs.length = 6 && cs.all lowerHex
  | _ => false

/-- Value of one hex digit, as int(-,16) assigns it (0 on the unreachable
non-digit case). -/
def hexVal (c : Char) : ℕ :=
  if '0' ≤ c ∧ c ≤ '9' then c.toNat - 48
  else if 'a' ≤ c ∧ c ≤ 'f' then c.toNat - 87
  else if 'A' ≤ c ∧ c ≤ 'F' then c.toNat - 55
  else 0

/-- Two hex digits to a byte value. -/
def hexPair (a b : Char) : ℕ := 16 * hexVal a + hexVal b

/-- hex_to_rgb: strip leading hashes, read three two-digit groups.  The
source would raise on shorter input; that case is unreachable (all inputs
are canonical) and is modelled as (0,0,0). -/
def hex_to_rgb (s : String) : ℕ × ℕ × ℕ :=
  match s.toList.dropWhile (· == '#') with
  | a :: b :: c :: d :: e :: f :: _ => (hexPair a b, hexPair c d, hexPair e f)
  | _ => (0, 0, 0)

/-- One lowercase hex digit of a value below 16. -/
def hexCharOf (n : ℕ) : Char := hexDigits.getD n '0'

/-- Two-digit lowercase hex rendering of a byte, as f-string 02x formats
values in 0..255 (all proved uses stay in that range). -/
def byteHex (n : ℕ) : List Char := [hexCharOf (n / 16), hexCharOf (n % 16)]

/-- rgb_to_hex over the integer channel values the pipeline produces. -/
def rgb_to_hex (r g b : ℤ) : String :=
  String.mk ('#' :: (byteHex r.toNat ++ byteHex g.toNat ++ byteHex b.toNat))

lemma normalize_hex_spot1 : normalize_hex " #CC241D " = some "#cc241d" := by decide

lemma normalize_hex_spot2 : normalize_hex "#cc241" = none := by decide

lemma hex_to_rgb_spot : hex_to_rgb "#cc241d" = (204, 36, 29) := by decide

lemma rgb_to_hex_spot : rgb_to_hex 204 36 29 = "#cc241d" := by decide

lemma isCanonHex_spot : isCanonHex "#cc241d" = true := by decide

/-! ### Linear color space (sRGB transfer functions) over exact reals -/

noncomputable section

/-- channel_to_linear: the sRGB-to-linear transfer function on a byte. -/
def channel_to_linear (channel : ℕ) : ℝ :=
  if (channel : ℝ) / 255 ≤ 0.04045 then (channel : ℝ) / 255 / 12.92
  else (((channel : ℝ) / 255 + 0.055) / 1.055) ^ (2.4 : ℝ)

/-- linear_to_channel: clamp to [0,1], apply the inverse transfer function,
scale to byte range and round. -/
def linear_to_channel (value : ℝ) : ℤ :=
  if max 0 (min 1 value) ≤ 0.0031308 then
    pyRound (max 0 (min 1 value) * 12.92 * 255)
  else
    pyRound ((1.055 * max 0 (min 1 value) ^ (1 / (2.4 : ℝ)) - 0.055) * 255)

lemma rpow24_pow_five {x : ℝ} (hx : 0 ≤ x) :
    (x ^ (2.4 : ℝ)) ^ (5 : ℕ) = x ^ (12 : ℕ) := by
  have h12 : (2.4 : ℝ) * ((5 : ℕ) : ℝ) = ((12 : ℕ) : ℝ) := by norm_num
  rw [← Real.rpow_natCast (x ^ (2.4 : ℝ)) 5, ← Real.rpow_mul hx, h12, Real.rpow_natCast]

lemma rpow512_pow_twelve {x : ℝ} (hx : 0 ≤ x) :
    (x ^ (1 / (2.4 : ℝ))) ^ (12 : ℕ) = x ^ (5 : ℕ) := by
  have h5 : (1 / (2.4 : ℝ)) * ((12 : ℕ) : ℝ) = ((5 : ℕ) : ℝ) := by norm_num
  rw [← Real.rpow_natCast (x ^ (1 / (2.4 : ℝ))) 12, ← Real.rpow_mul hx, h5, Real.rpow_natCast]

lemma lt_rpow24 {x c : ℝ} (hx : 0 ≤ x) (h : c ^ 5 < x ^ 12) :
    c < x ^ (2.4 : ℝ) := by
  by_contra hle
  push_neg at hle
  have h5 : (x ^ (2.4 : ℝ)) ^ (5 : ℕ) ≤ c ^ (5 : ℕ) :=
    pow_le_pow_left₀ (Real.rpow_nonneg hx _) hle 5
  rw [rpow24_pow_five hx] at h5
  linarith

lemma rpow24_lt {x c : ℝ} (hx : 0 ≤ x) (hc : 0 ≤ c) (h : x ^ 12 < c ^ 5) :
    x ^ (2.4 : ℝ) < c := by
  by_contra hle
  push_neg at hle
  have h5 : c ^ (5 : ℕ) ≤ (x ^ (2.4 : ℝ)) ^ (5 : ℕ) := pow_le_pow_left₀ hc hle 5
  rw [rpow24_pow_five hx] at h5
  linarith

lemma lt_rpow512 {x c : ℝ} (hx : 0 ≤ x) (h : c ^ 12 < x ^ 5) :
    c < x ^ (1 / (2.4 : ℝ)) := by
  by_contra hle
  push_neg at hle
  have h12 : (x ^ (1 / (2.4 : ℝ))) ^ (12 : ℕ) ≤ c ^ (12 : ℕ) :=
    pow_le_pow_left₀ (Real.rpow_nonneg hx _) hle 12
  rw [rpow512_pow_twelve hx] at h12
  linarith

lemma rpow512_lt {x c : ℝ} (hx : 0 ≤ x) (hc : 0 ≤ c) (h : x ^ 5 < c ^ 12) :
    x ^ (1 / (2.4 : ℝ)) < c := by
  by_contra hle
  push_neg at hle
  have h12 : c ^ (12 : ℕ) ≤ (x ^ (1 / (2.4 : ℝ))) ^ (12 : ℕ) := pow_le_pow_left₀ hc hle 12
  rw [rpow512_pow_twelve hx] at h12
  linarith

/-- Lower bound for the power branch of channel_to_linear. -/
lemma lin_lb (n : ℕ) (c : ℝ) (hbr : ¬ ((n : ℝ) / 255 ≤ 0.04045))
    (h : c ^ 5 < (((n : ℝ) / 255 + 0.055) / 1.055) ^ 12) : c < channel_to_linear n := by
  unfold channel_to_linear
  rw [if_neg hbr]
  exact lt_rpow24 (by positivity) h

/-- Upper bound for the power branch of channel_to_linear. -/
lemma lin_ub (n : ℕ) (c : ℝ) (hbr : ¬ ((n : ℝ) / 255 ≤ 0.04045)) (hc : 0 ≤ c)
    (h : (((n : ℝ) / 255 + 0.055) / 1.055) ^ 12 < c ^ 5) : channel_to_linear n < c := by
  unfold channel_to_linear
  rw [if_neg hbr]
  exact rpow24_lt (by positivity) hc h

lemma lin204_bounds :
    (0.6038273388 : ℝ) < channel_to_linear 204 ∧ channel_to_linear 204 < 0.6038273389 :=
  ⟨lin_lb 204 _ (by norm_num) (by norm_num),
   lin_ub 204 _ (by norm_num) (by norm_num) (by norm_num)⟩

end

noncomputable section

lemma lin0 : channel_to_linear 0 = 0 := by
  unfold channel_to_linear
  rw [if_pos (by norm_num)]
  norm_num

lemma lin255 : channel_to_linear 255 = 1 := by
  unfold channel_to_linear
  rw [if_neg (by norm_num), show (((255 : ℕ) : ℝ) / 255 + 0.055) / 1.055 = 1 by norm_num,
    Real.one_rpow]

lemma lin_nonneg (n : ℕ) : 0 ≤ channel_to_linear n := by
  unfold channel_to_linear
  by_cases h : (n : ℝ) / 255 ≤ 0.04045
  · rw [if_pos h]
    positivity
  · rw [if_neg h]
    exact Real.rpow_nonneg (by positivity) _

lemma lin_le_one (n : ℕ) (hn : n ≤ 255) : channel_to_linear n ≤ 1 := by
  have hv : (n : ℝ) ≤ 255 := by exact_mod_cast hn
  have hv1 : (n : ℝ) / 255 ≤ 1 := by
    rw [div_le_one (by norm_num)]
    exact hv
  unfold channel_to_linear
  by_cases h : (n : ℝ) / 255 ≤ 0.04045
  · rw [if_pos h]
    rw [div_le_one (by norm_num)]
    linarith
  · rw [if_neg h]
    apply Real.rpow_le_one (by positivity) _ (by norm_num)
    rw [div_le_one (by norm_num)]
    linarith

lemma lin18_bounds :
    (0.0060488330 : ℝ) < channel_to_linear 18 ∧ channel_to_linear 18 < 0.0060488331 :=
  ⟨lin_lb 18 _ (by norm_num) (by norm_num),
   lin_ub 18 _ (by norm_num) (by norm_num) (by norm_num)⟩

lemma lin21_bounds :
    (0.0074990320 : ℝ) < channel_to_linear 21 ∧ channel_to_linear 21 < 0.0074990321 :=
  ⟨lin_lb 21 _ (by norm_num) (by norm_num),
   lin_ub 21 _ (by norm_num) (by norm_num) (by norm_num)⟩

lemma lin29_bounds :
    (0.0122864883 : ℝ) < channel_to_linear 29 ∧ channel_to_linear 29 < 0.0122864884 :=
  ⟨lin_lb 29 _ (by norm_num) (by norm_num),
   lin_ub 29 _ (by norm_num) (by norm_num) (by norm_num)⟩

lemma lin32_bounds :
    (0.0144438435 : ℝ) < channel_to_linear 32 ∧ channel_to_linear 32 < 0.0144438436 :=
  ⟨lin_lb 32 _ (by norm_num) (by norm_num),
   lin_ub 32 _ (by norm_num) (by norm_num) (by norm_num)⟩

lemma lin33_bounds :
    (0.0152085144 : ℝ) < channel_to_linear 33 ∧ channel_to_linear 33 < 0.0152085145 :=
  ⟨lin_lb 33 _ (by norm_num) (by norm_num),
   lin_ub 33 _ (by norm_num) (by norm_num) (by norm_num)⟩

lemma lin36_bounds :
    (0.0176419544 : ℝ) < channel_to_linear 36 ∧ channel_to_linear 36 < 0.0176419545 :=
  ⟨lin_lb 36 _ (by norm_num) (by norm_num),
   lin_ub 36 _ (by norm_num) (by norm_num) (by norm_num)⟩

lemma lin187_bounds :
    (0.4969 : ℝ) < channel_to_linear 187 ∧ channel_to_linear 187 < 0.4970 :=
  ⟨lin_lb 187 _ (by norm_num) (by norm_num),
   lin_ub 187 _ (by norm_num) (by norm_num) (by norm_num)⟩

lemma lin196_bounds :
    (0.5520 : ℝ) < channel_to_linear 196 ∧ channel_to_linear 196 < 0.5521 :=
  ⟨lin_lb 196 _ (by norm_num) (by norm_num),
   lin_ub 196 _ (by norm_num) (by norm_num) (by norm_num)⟩

lemma lin210_bounds :
    (0.6444796819 : ℝ) < channel_to_linear 210 ∧ channel_to_linear 210 < 0.6444796820 :=
  ⟨lin_lb 210 _ (by norm_num) (by norm_num),
   lin_ub 210 _ (by norm_num) (by norm_num) (by norm_num)⟩

lemma lin221_bounds :
    (0.7230 : ℝ) < channel_to_linear 221 ∧ channel_to_linear 221 < 0.7231 :=
  ⟨lin_lb 221 _ (by norm_num) (by norm_num),
   lin_ub 221 _ (by norm_num) (by norm_num) (by norm_num)⟩

lemma lin230_bounds :
    (0.7912979403 : ℝ) < channel_to_linear 230 ∧ channel_to_linear 230 < 0.7912979404 :=
  ⟨lin_lb 230 _ (by norm_num) (by norm_num),
   lin_ub 230 _ (by norm_num) (by norm_num) (by norm_num)⟩

lemma lin241_lb : (0.85 : ℝ) < channel_to_linear 241 :=
  lin_lb 241 _ (by norm_num) (by norm_num)

/-- Byte-pinning of linear_to_channel on the power branch, from rational
bounds p ≤ v ≤ q and verified digit bounds clo, chi on the 1/2.4 powers of
the endpoints. -/
lemma l2c_byte (v p q : ℝ) (n : ℤ) (clo chi : ℝ)
    (hpv : p ≤ v) (hvq : v ≤ q) (hq1 : q ≤ 1) (hbr : 0.0031308 < p) (hp0 : 0 ≤ p)
    (hchi : 0 ≤ chi)
    (hlo : clo ^ 12 < p ^ 5) (hhi : q ^ 5 < chi ^ 12)
    (hn1 : (n : ℝ) - 1 / 2 < (1.055 * clo - 0.055) * 255)
    (hn2 : (1.055 * chi - 0.055) * 255 < (n : ℝ) + 1 / 2) :
    linear_to_channel v = n := by
  have hv0 : 0 ≤ v := le_trans hp0 hpv
  have hv1 : v ≤ 1 := le_trans hvq hq1
  have hclamp : max 0 (min 1 v) = v := by
    rw [min_eq_right hv1, max_eq_right hv0]
  have hply : clo ^ 12 < v ^ 5 :=
    lt_of_lt_of_le hlo (pow_le_pow_left₀ hp0 hpv 5)
  have hphy : v ^ 5 < chi ^ 12 :=
    lt_of_le_of_lt (pow_le_pow_left₀ hv0 hvq 5) hhi
  have h1 : clo < v ^ (1 / (2.4 : ℝ)) := lt_rpow512 hv0 hply
  have h2 : v ^ (1 / (2.4 : ℝ)) < chi := rpow512_lt hv0 hchi hphy
  unfold linear_to_channel
  rw [hclamp, if_neg (by linarith)]
  apply pyRound_eq_of
  · nlinarith
  · nlinarith

/-- Small linear-branch values encode to byte 0. -/
lemma l2c_zero (v : ℝ) (h0 : 0 ≤ v) (hsm : v * 12.92 * 255 < 1 / 2) :
    linear_to_channel v = 0 := by
  have hv1 : v ≤ 1 := by nlinarith
  have hclamp : max 0 (min 1 v) = v := by
    rw [min_eq_right hv1, max_eq_right h0]
  unfold linear_to_channel
  rw [hclamp, if_pos (by nlinarith)]
  apply pyRound_eq_of
  · push_cast
    nlinarith
  · push_cast
    linarith

/-- linear_to_channel always lands in the byte range (C7 kernel). -/
lemma l2c_range (v : ℝ) : 0 ≤ linear_to_channel v ∧ linear_to_channel v ≤ 255 := by
  have hw0 : (0 : ℝ) ≤ max 0 (min 1 v) := le_max_left 0 _
  have hw1 : max 0 (min 1 v) ≤ 1 := max_le (by norm_num) (min_le_left 1 v)
  unfold linear_to_channel
  by_cases h : max 0 (min 1 v) ≤ 0.0031308
  · rw [if_pos h]
    exact pyRound_range _ 0 255 (by push_cast; nlinarith) (by push_cast; nlinarith)
  · rw [if_neg h]
    push_neg at h
    have hup : max 0 (min 1 v) ^ (1 / (2.4 : ℝ)) ≤ 1 :=
      Real.rpow_le_one hw0 hw1 (by norm_num)
    have hlow : (55 / 1055 : ℝ) < max 0 (min 1 v) ^ (1 / (2.4 : ℝ)) := by
      apply lt_rpow512 hw0
      calc (55 / 1055 : ℝ) ^ 12 < (0.0031308 : ℝ) ^ 5 := by norm_num
        _ ≤ max 0 (min 1 v) ^ 5 := pow_le_pow_left₀ (by norm_num) (le_of_lt h) 5
    exact pyRound_range _ 0 255 (by push_cast; nlinarith) (by push_cast; nlinarith)

end

/-! ### Color operations: luminance, contrast, blend, candidate selection -/

noncomputable section

/-- relative_luminance: weighted sum of the decoded channels. -/
def relative_luminance (color : String) : ℝ :=
  0.2126 * channel_to_linear (hex_to_rgb color).1
    + 0.7152 * channel_to_linear (hex_to_rgb color).2.1
    + 0.0722 * channel_to_linear (hex_to_rgb color).2.2

/-- contrast_ratio: (lighter + 0.05) / (darker + 0.05). -/
def contrast_ratio (a b : String) : ℝ :=
  (max (relative_luminance a) (relative_luminance b) + 0.05) /
    (min (relative_luminance a) (relative_luminance b) + 0.05)

/-- blend: per-channel linear interpolation in byte space. -/
def blend (a b : String) (amount : ℝ) : String :=
  rgb_to_hex
    (pyRound (((hex_to_rgb a).1 : ℝ)
      + (((hex_to_rgb b).1 : ℝ) - ((hex_to_rgb a).1 : ℝ)) * amount))
    (pyRound (((hex_to_rgb a).2.1 : ℝ)
      + (((hex_to_rgb b).2.1 : ℝ) - ((hex_to_rgb a).2.1 : ℝ)) * amount))
    (pyRound (((hex_to_rgb a).2.2 : ℝ)
      + (((hex_to_rgb b).2.2 : ℝ) - ((hex_to_rgb a).2.2 : ℝ)) * amount))

end

/-- One step of best_contrast_text's dedup loop. -/
def ucStep (acc : List String) (c : String) : List String :=
  match normalize_hex c with
  | none => acc
  | some n => if n ∈ acc then acc else acc ++ [n]

/-- The deduplicated, order-preserving normalization of the candidate list
built by best_contrast_text's loop. -/
def uniqueCandidates (candidates : List String) : List String :=
  candidates.foldl ucStep []

noncomputable section

/-- Python max(list, key=f): first element attaining the maximal key. -/
def pyMaxBy (f : String → ℝ) : String → List String → String
  | best, [] => best
  | best, c :: rest => pyMaxBy f (if f best < f c then c else best) rest

/-- best_contrast_text: stable argmax of contrast against the surface over
the deduplicated candidates, pure white when there are none. -/
def best_contrast_text (background : String) (candidates : List String) : String :=
  match uniqueCandidates candidates with
  | [] => "#ffffff"
  | c :: rest => pyMaxBy (fun color => contrast_ratio background color) c rest

/-- The 20-step bisection loop of the saturation booster, generic in the
in-gamut test. -/
def bsearch (P : ℝ → Prop) [DecidablePred P] : ℕ → ℝ → ℝ → ℝ × ℝ
  | 0, low, high => (low, high)
  | n + 1, low, high =>
      if P ((low + high) / 2) then bsearch P n ((low + high) / 2) high
      else bsearch P n low ((low + high) / 2)

/-- The per-channel transform of the saturation booster. -/
def trCh (y v k : ℝ) : ℝ := y + (v - y) * k

/-- All three transformed channels of the color stay inside [0,1]. -/
def boostGamutP (color : String) (k : ℝ) : Prop :=
  (0 ≤ trCh (relative_luminance color) (channel_to_linear (hex_to_rgb color).1) k ∧
    trCh (relative_luminance color) (channel_to_linear (hex_to_rgb color).1) k ≤ 1) ∧
  (0 ≤ trCh (relative_luminance color) (channel_to_linear (hex_to_rgb color).2.1) k ∧
    trCh (relative_luminance color) (channel_to_linear (hex_to_rgb color).2.1) k ≤ 1) ∧
  (0 ≤ trCh (relative_luminance color) (channel_to_linear (hex_to_rgb color).2.2) k ∧
    trCh (relative_luminance color) (channel_to_linear (hex_to_rgb color).2.2) k ≤ 1)

instance boostGamutPDec (color : String) : DecidablePred (boostGamutP color) := fun k => by
  unfold boostGamutP
  infer_instance

/-- The low end of the bisection bracket after the 20 iterations. -/
def boostLow (color : String) (factor : ℝ) : ℝ :=
  (bsearch (boostGamutP color) 20 1 factor).1

/-- boost_saturation_preserve_luminance. -/
def boost_saturation_preserve_luminance (color : String) (factor : ℝ) : String :=
  if factor ≤ 1 then color
  else
    rgb_to_hex
      (linear_to_channel (trCh (relative_luminance color)
        (channel_to_linear (hex_to_rgb color).1) (boostLow color factor)))
      (linear_to_channel (trCh (relative_luminance color)
        (channel_to_linear (hex_to_rgb color).2.1) (boostLow color factor)))
      (linear_to_channel (trCh (relative_luminance color)
        (channel_to_linear (hex_to_rgb color).2.2) (boostLow color factor)))

/-- The scaling factor of scale_luminance after the gamut-overflow
correction. -/
def scaleFactor (color : String) (target_lum : ℝ) : ℝ :=
  if 1 < max (max (channel_to_linear (hex_to_rgb color).1 * (target_lum / relative_luminance color))
      (channel_to_linear (hex_to_rgb color).2.1 * (target_lum / relative_luminance color)))
      (channel_to_linear (hex_to_rgb color).2.2 * (target_lum / relative_luminance color)) then
    (target_lum / relative_luminance color) /
      max (max (channel_to_linear (hex_to_rgb color).1 * (target_lum / relative_luminance color))
        (channel_to_linear (hex_to_rgb color).2.1 * (target_lum / relative_luminance color)))
        (channel_to_linear (hex_to_rgb color).2.2 * (target_lum / relative_luminance color))
  else target_lum / relative_luminance color

/-- The linear channel triple of scale_luminance before byte re-encoding. -/
def scaleTriple (color : String) (target_lum : ℝ) : ℝ × ℝ × ℝ :=
  (channel_to_linear (hex_to_rgb color).1 * scaleFactor color target_lum,
   channel_to_linear (hex_to_rgb color).2.1 * scaleFactor color target_lum,
   channel_to_linear (hex_to_rgb color).2.2 * scaleFactor color target_lum)

/-- scale_luminance: rescale to a target luminance preserving chromaticity,
with the near-black short-circuit and the gamut-overflow correction. -/
def scale_luminance (color : String) (target_lum : ℝ) : String :=
  if relative_luminance color < 0.001 then color
  else
    rgb_to_hex
      (linear_to_channel (scaleTriple color target_lum).1)
      (linear_to_channel (scaleTriple color target_lum).2.1)
      (linear_to_channel (scaleTriple color target_lum).2.2)

/-! ### The palette deriver -/

def DARK_BACKGROUND_LUMINANCE_THRESHOLD : ℝ := 0.26

def DARK_THEME_SATURATION_BOOST : ℝ := 1.35

def DARK_ACCENT_MAX_LUMINANCE : ℝ := 0.55

def DARK_ACCENT_MIN_CONTRAST : ℝ := 3.5

/-- The inner _clamp_lum of build_starship_palette. -/
def clampLum (c : String) : String :=
  if DARK_ACCENT_MAX_LUMINANCE < relative_luminance c then
    scale_luminance c DARK_ACCENT_MAX_LUMINANCE
  else c

/-- The inner _ensure_contrast of build_starship_palette. -/
def ensureContrast (background c : String) : String :=
  if contrast_ratio c background < DARK_ACCENT_MIN_CONTRAST then
    scale_luminance c
      (max (DARK_ACCENT_MIN_CONTRAST * (relative_luminance background + 0.05) - 0.05) 0.15)
  else c

/-- The three sequential dark-theme corrections applied to one accent. -/
def darkAccent (background c : String) : String :=
  ensureContrast background
    (clampLum (boost_saturation_preserve_luminance c DARK_THEME_SATURATION_BOOST))

/-- An accent's value after the conditional dark-theme pass. -/
def applyAccentPipeline (background c : String) : String :=
  if relative_luminance background < DARK_BACKGROUND_LUMINANCE_THRESHOLD then
    darkAccent background c
  else c

end

/-- The parsed Ghostty configuration consumed by build_starship_palette:
the three named colors (present only when load_ghostty_config stored a
normalized value) and the indexed palette mapping. -/
structure GhosttyParsed where
  foreground : Option String
  background : Option String
  selection_background : Option String
  palette : ℕ → Option String

/-- Python truthiness of an optional string: present and nonempty. -/
def pyOrOpt (a : Option String) : Option String :=
  match a with
  | none => none
  | some s => if s.toList.isEmpty then none else some s

/-- Python x or d for a string default. -/
def orDefault (a : Option String) (d : String) : String :=
  match pyOrOpt a with
  | some s => s
  | none => d

/-- Python x or y or d. -/
def orOrDefault (a b : Option String) (d : String) : String :=
  match pyOrOpt a with
  | some s => s
  | none => orDefault b d

def rawForeground (p : GhosttyParsed) : String :=
  orOrDefault p.foreground (p.palette 7) "#fbf1c7"

def rawBackground (p : GhosttyParsed) : String :=
  orOrDefault p.background (p.palette 0) "#3c3836"

noncomputable def rawSelection (p : GhosttyParsed) : String :=
  orOrDefault p.selection_background (p.palette 8)
    (blend (rawBackground p) (rawForeground p) 0.25)

def rawRed (p : GhosttyParsed) : String := orDefault (p.palette 1) "#cc241d"

def rawGreen (p : GhosttyParsed) : String := orDefault (p.palette 2) "#98971a"

def rawYellow (p : GhosttyParsed) : String := orDefault (p.palette 3) "#d79921"

def rawBlue (p : GhosttyParsed) : String := orDefault (p.palette 4) "#458588"

def rawPurple (p : GhosttyParsed) : String := orDefault (p.palette 5) "#b16286"

def rawAqua (p : GhosttyParsed) : String := orDefault (p.palette 6) "#689d6a"

/-- orange = blend(red, yellow, 0.5), from the fallback-resolved red and
yellow, before any dark-theme correction. -/
noncomputable def rawOrange (p : GhosttyParsed) : String :=
  blend (rawRed p) (rawYellow p) 0.5

noncomputable section

def finalRed (p : GhosttyParsed) : String :=
  applyAccentPipeline (rawBackground p) (rawRed p)

def finalGreen (p : GhosttyParsed) : String :=
  applyAccentPipeline (rawBackground p) (rawGreen p)

def finalYellow (p : GhosttyParsed) : String :=
  applyAccentPipeline (rawBackground p) (rawYellow p)

def finalBlue (p : GhosttyParsed) : String :=
  applyAccentPipeline (rawBackground p) (rawBlue p)

def finalPurple (p : GhosttyParsed) : String :=
  applyAccentPipeline (rawBackground p) (rawPurple p)

def finalAqua (p : GhosttyParsed) : String :=
  applyAccentPipeline (rawBackground p) (rawAqua p)

def finalOrange (p : GhosttyParsed) : String :=
  applyAccentPipeline (rawBackground p) (rawOrange p)

def contrastCandidates (p : GhosttyParsed) : List String :=
  [rawForeground p, rawBackground p, "#ffffff", "#000000"]

/-- build_starship_palette: the 19-slot named mapping, in the source's
insertion order. -/
def build_starship_palette (p : GhosttyParsed) : List (String × String) :=
  [("color_fg0", rawForeground p),
   ("color_bg1", rawBackground p),
   ("color_bg3", rawSelection p),
   ("color_on_bg1", best_contrast_text (rawBackground p) (contrastCandidates p)),
   ("color_on_bg3", best_contrast_text (rawSelection p) (contrastCandidates p)),
   ("color_on_blue", best_contrast_text (finalBlue p) (contrastCandidates p)),
   ("color_on_aqua", best_contrast_text (finalAqua p) (contrastCandidates p)),
   ("color_on_green", best_contrast_text (finalGreen p) (contrastCandidates p)),
   ("color_on_orange", best_contrast_text (finalOrange p) (contrastCandidates p)),
   ("color_on_purple", best_contrast_text (finalPurple p) (contrastCandidates p)),
   ("color_on_red", best_contrast_text (finalRed p) (contrastCandidates p)),
   ("color_on_yellow", best_contrast_text (finalYellow p) (contrastCandidates p)),
   ("color_blue", finalBlue p),
   ("color_aqua", finalAqua p),
   ("color_green", finalGreen p),
   ("color_orange", finalOrange p),
   ("color_purple", finalPurple p),
   ("color_red", finalRed p),
   ("color_yellow", finalYellow p)]

end

/-! ### Round-trip of the transfer pair on bytes -/

lemma roundtrip_aux (n : ℕ) (hn : n ≤ 255) :
    linear_to_channel (channel_to_linear n) = (n : ℤ) := by
  have hnr : (n : ℝ) ≤ 255 := by exact_mod_cast hn
  rcases le_or_lt n 10 with h10 | h11
  · have h10r : (n : ℝ) ≤ 10 := by exact_mod_cast h10
    have hbr : (n : ℝ) / 255 ≤ 0.04045 := by
      rw [div_le_iff₀ (by norm_num : (0 : ℝ) < 255)]
      linarith
    have hL : channel_to_linear n = (n : ℝ) / 255 / 12.92 := by
      unfold channel_to_linear
      rw [if_pos hbr]
    have hL0 : (0 : ℝ) ≤ (n : ℝ) / 255 / 12.92 := by positivity
    have hL1 : (n : ℝ) / 255 / 12.92 ≤ 1 := by
      rw [div_le_one (by norm_num), div_le_iff₀ (by norm_num : (0 : ℝ) < 255)]
      linarith
    have hLsm : (n : ℝ) / 255 / 12.92 ≤ 0.0031308 := by
      rw [div_le_iff₀ (by norm_num : (0 : ℝ) < 12.92), div_le_iff₀ (by norm_num : (0 : ℝ) < 255)]
      linarith
    rw [hL]
    unfold linear_to_channel
    rw [min_eq_right hL1, max_eq_right hL0, if_pos hLsm]
    have heq : (n : ℝ) / 255 / 12.92 * 12.92 * 255 = ((n : ℤ) : ℝ) := by
      push_cast
      field_simp
      ring
    rw [heq, pyRound_intCast]
  · have h11r : (11 : ℝ) ≤ (n : ℝ) := by exact_mod_cast h11
    have hbr : ¬ ((n : ℝ) / 255 ≤ 0.04045) := by
      rw [not_le, lt_div_iff₀ (by norm_num : (0 : ℝ) < 255)]
      linarith
    set x := ((n : ℝ) / 255 + 0.055) / 1.055 with hxdef
    have hx0 : 0 ≤ x := by rw [hxdef]; positivity
    have hnd : (n : ℝ) / 255 ≤ 1 := by
      rw [div_le_one (by norm_num)]
      linarith
    have hx1 : x ≤ 1 := by
      rw [hxdef, div_le_one (by norm_num)]
      linarith
    have hL : channel_to_linear n = x ^ (2.4 : ℝ) := by
      unfold channel_to_linear
      rw [if_neg hbr]
    have hL0 : 0 ≤ x ^ (2.4 : ℝ) := Real.rpow_nonneg hx0 _
    have hL1 : x ^ (2.4 : ℝ) ≤ 1 := Real.rpow_le_one hx0 hx1 (by norm_num)
    have hx11 : ((11 : ℝ) / 255 + 0.055) / 1.055 ≤ x := by
      rw [hxdef]
      gcongr
    have hLlow : (0.0031308 : ℝ) < x ^ (2.4 : ℝ) := by
      have h1 : (0.0031308 : ℝ) < (((11 : ℝ) / 255 + 0.055) / 1.055) ^ (2.4 : ℝ) :=
        lt_rpow24 (by norm_num) (by norm_num)
      have h2 : (((11 : ℝ) / 255 + 0.055) / 1.055) ^ (2.4 : ℝ) ≤ x ^ (2.4 : ℝ) :=
        Real.rpow_le_rpow (by norm_num) hx11 (by norm_num)
      linarith
    rw [hL]
    unfold linear_to_channel
    rw [min_eq_right hL1, max_eq_right hL0, if_neg (by linarith)]
    have hinv : (x ^ (2.4 : ℝ)) ^ (1 / (2.4 : ℝ)) = x := by
      rw [← Real.rpow_mul hx0, show (2.4 : ℝ) * (1 / 2.4) = 1 by norm_num, Real.rpow_one]
    rw [hinv]
    have heq : (1.055 * x - 0.055) * 255 = ((n : ℤ) : ℝ) := by
      rw [hxdef]
      push_cast
      field_simp
      ring
    rw [heq, pyRound_intCast]

/-! ### Bisection invariant -/

lemma bsearch_spec {P : ℝ → Prop} [DecidablePred P] {a b kstar : ℝ}
    (hiff : ∀ k, a ≤ k → k ≤ b → (P k ↔ k ≤ kstar)) :
    ∀ n lo hi, a ≤ lo → hi ≤ b → lo < hi → lo ≤ kstar → (kstar < hi ∨ hi = b) →
      a ≤ (bsearch P n lo hi).1 ∧ (bsearch P n lo hi).1 ≤ kstar ∧
      (bsearch P n lo hi).1 < (bsearch P n lo hi).2 ∧ (bsearch P n lo hi).2 ≤ b ∧
      (kstar < (bsearch P n lo hi).2 ∨ (bsearch P n lo hi).2 = b) ∧
      (bsearch P n lo hi).2 - (bsearch P n lo hi).1 = (hi - lo) / 2 ^ n := by
  intro n
  induction n with
  | zero =>
    intro lo hi h1 h2 h3 h4 h5
    refine ⟨h1, h4, h3, h2, h5, by simp [bsearch]⟩
  | succ n ih =>
    intro lo hi h1 h2 h3 h4 h5
    have hmid1 : lo < (lo + hi) / 2 := by linarith
    have hmid2 : (lo + hi) / 2 < hi := by linarith
    by_cases hP : P ((lo + hi) / 2)
    · have hrw : bsearch P (n + 1) lo hi = bsearch P n ((lo + hi) / 2) hi := by
        simp only [bsearch, if_pos hP]
      have hmk : (lo + hi) / 2 ≤ kstar := (hiff _ (by linarith) (by linarith)).mp hP
      obtain ⟨c1, c2, c3, c4, c5, c6⟩ := ih ((lo + hi) / 2) hi (by linarith) h2 hmid2 hmk h5
      rw [hrw]
      refine ⟨c1, c2, c3, c4, c5, ?_⟩
      rw [c6, pow_succ]
      ring
    · have hrw : bsearch P (n + 1) lo hi = bsearch P n lo ((lo + hi) / 2) := by
        simp only [bsearch, if_neg hP]
      have hmk : kstar < (lo + hi) / 2 := by
        by_contra hle
        push_neg at hle
        exact hP ((hiff _ (by linarith) (by linarith)).mpr hle)
      obtain ⟨c1, c2, c3, c4, c5, c6⟩ :=
        ih lo ((lo + hi) / 2) h1 (by linarith) hmid1 h4 (Or.inl hmk)
      rw [hrw]
      refine ⟨c1, c2, c3, c4, c5, ?_⟩
      rw [c6, pow_succ]
      ring

/-! ### Character and list toolkit -/

lemma lowerHex_cases {c : Char} (h : lowerHex c = true) :
    c = '0' ∨ c = '1' ∨ c = '2' ∨ c = '3' ∨ c = '4' ∨ c = '5' ∨ c = '6' ∨ c = '7' ∨
    c = '8' ∨ c = '9' ∨ c = 'a' ∨ c = 'b' ∨ c = 'c' ∨ c = 'd' ∨ c = 'e' ∨ c = 'f' := by
  unfold lowerHex at h
  simp only [Bool.or_eq_true, decide_eq_true_eq] at h
  tauto

lemma isHexDigitCh_cases {c : Char} (h : isHexDigitCh c = true) :
    c = '0' ∨ c = '1' ∨ c = '2' ∨ c = '3' ∨ c = '4' ∨ c = '5' ∨ c = '6' ∨ c = '7' ∨
    c = '8' ∨ c = '9' ∨ c = 'a' ∨ c = 'b' ∨ c = 'c' ∨ c = 'd' ∨ c = 'e' ∨ c = 'f' ∨
    c = 'A' ∨ c = 'B' ∨ c = 'C' ∨ c = 'D' ∨ c = 'E' ∨ c = 'F' := by
  unfold isHexDigitCh at h
  simp only [Bool.or_eq_true, decide_eq_true_eq] at h
  tauto

lemma hexLower_lowerHex {c : Char} (h : isHexDigitCh c = true) :
    lowerHex (hexLower c) = true := by
  rcases isHexDigitCh_cases h with
    rfl | rfl | rfl | rfl | rfl | rfl | rfl | rfl | rfl | rfl | rfl |
    rfl | rfl | rfl | rfl | rfl | rfl | rfl | rfl | rfl | rfl | rfl <;> decide

lemma hexLower_self {c : Char} (h : lowerHex c = true) : hexLower c = c := by
  rcases lowerHex_cases h with
    rfl | rfl | rfl | rfl | rfl | rfl | rfl | rfl | rfl | rfl | rfl |
    rfl | rfl | rfl | rfl | rfl <;> decide

lemma lowerHex_isHexDigitCh {c : Char} (h : lowerHex c = true) : isHexDigitCh c = true := by
  rcases lowerHex_cases h with
    rfl | rfl | rfl | rfl | rfl | rfl | rfl | rfl | rfl | rfl | rfl |
    rfl | rfl | rfl | rfl | rfl <;> decide

lemma lowerHex_not_space {c : Char} (h : lowerHex c = true) : isPySpace c = false := by
  rcases lowerHex_cases h with
    rfl | rfl | rfl | rfl | rfl | rfl | rfl | rfl | rfl | rfl | rfl |
    rfl | rfl | rfl | rfl | rfl <;> decide

lemma lowerHex_ne_hash {c : Char} (h : lowerHex c = true) : (c == '#') = false := by
  rcases lowerHex_cases h with
    rfl | rfl | rfl | rfl | rfl | rfl | rfl | rfl | rfl | rfl | rfl |
    rfl | rfl | rfl | rfl | rfl <;> decide

lemma hexVal_le_15 {c : Char} (h : lowerHex c = true) : hexVal c ≤ 15 := by
  rcases lowerHex_cases h with
    rfl | rfl | rfl | rfl | rfl | rfl | rfl | rfl | rfl | rfl | rfl |
    rfl | rfl | rfl | rfl | rfl <;> decide

lemma hexCharOf_lowerHex {k : ℕ} (hk : k < 16) : lowerHex (hexCharOf k) = true := by
  interval_cases k <;> decide

lemma six_of_length {cs : List Char} (h : cs.length = 6) :
    ∃ a b c d e f, cs = [a, b, c, d, e, f] := by
  match cs, h with
  | [a, b, c, d, e, f], _ => exact ⟨a, b, c, d, e, f, rfl⟩

lemma stringMk_toList (s : String) : String.mk s.toList = s := rfl

lemma isCanonHex_elim {s : String} (h : isCanonHex s = true) :
    ∃ cs, s.toList = '#' :: cs ∧ cs.length = 6 ∧ cs.all lowerHex = true := by
  unfold isCanonHex at h
  split at h
  · next cs heq => exact ⟨cs, heq, by simpa using h⟩
  · simp at h

/-! ### Canonical form lemmas -/

lemma isCanonHex_mk (l : List Char) :
    isCanonHex (String.mk ('#' :: l)) = (decide (l.length = 6) && l.all lowerHex) := rfl

lemma normalize_hex_eq (s : String) (cs : List Char) (h : (pyStrip s).toList = '#' :: cs) :
    normalize_hex s =
      if cs.length = 6 && cs.all isHexDigitCh then
        some (String.mk ('#' :: cs.map hexLower))
      else none := by
  unfold normalize_hex
  rw [h]
  rfl

lemma normalize_hex_canonical {s t : String} (h : normalize_hex s = some t) :
    isCanonHex t = true := by
  unfold normalize_hex at h
  split at h
  · next cs heq =>
    split at h
    · next hcond =>
      have ht : t = String.mk ('#' :: cs.map hexLower) := by
        injection h with h2
        exact h2.symm
      subst ht
      simp only [Bool.and_eq_true, decide_eq_true_eq] at hcond
      obtain ⟨hlen, hall⟩ := hcond
      rw [isCanonHex_mk]
      have h1 : decide ((cs.map hexLower).length = 6) = true := by
        simp [List.length_map, hlen]
      rw [h1, Bool.true_and, List.all_map, List.all_eq_true]
      intro c hc
      exact hexLower_lowerHex ((List.all_eq_true.mp hall) c hc)
    · exact absurd h (by simp)
  · exact absurd h (by simp)

lemma dropWhile_head_false (p : Char → Bool) (x : Char) (l : List Char) (hx : p x = false) :
    List.dropWhile p (x :: l) = x :: l := by
  rw [List.dropWhile_cons, hx]
  simp

lemma pyStrip_canon {s : String} (h : isCanonHex s = true) : pyStrip s = s := by
  obtain ⟨cs, hs, hlen, hall⟩ := isCanonHex_elim h
  obtain ⟨a, b, c, d, e, f, rfl⟩ := six_of_length hlen
  simp only [List.all_cons, Bool.and_eq_true, List.all_nil, Bool.and_true] at hall
  obtain ⟨ha, hb, hc, hd, he, hf⟩ := hall
  unfold pyStrip
  rw [hs]
  rw [dropWhile_head_false isPySpace '#' [a, b, c, d, e, f] (by decide)]
  have hrev : (['#', a, b, c, d, e, f] : List Char).reverse = [f, e, d, c, b, a, '#'] := by
    simp
  rw [hrev, dropWhile_head_false isPySpace f [e, d, c, b, a, '#'] (lowerHex_not_space hf)]
  have hrev2 : ([f, e, d, c, b, a, '#'] : List Char).reverse = ['#', a, b, c, d, e, f] := by
    simp
  rw [hrev2, ← hs, stringMk_toList]

lemma isCanonHex_normalize_self {s : String} (h : isCanonHex s = true) :
    normalize_hex s = some s := by
  obtain ⟨cs, hs, hlen, hall⟩ := isCanonHex_elim h
  obtain ⟨a, b, c, d, e, f, rfl⟩ := six_of_length hlen
  simp only [List.all_cons, Bool.and_eq_true, List.all_nil, Bool.and_true] at hall
  obtain ⟨ha, hb, hc, hd, he, hf⟩ := hall
  rw [normalize_hex_eq s [a, b, c, d, e, f] (by rw [pyStrip_canon h]; exact hs)]
  rw [if_pos]
  · have hmap : [a, b, c, d, e, f].map hexLower = [a, b, c, d, e, f] := by
      simp only [List.map_cons, List.map_nil]
      rw [hexLower_self ha, hexLower_self hb, hexLower_self hc, hexLower_self hd,
        hexLower_self he, hexLower_self hf]
    rw [hmap, ← hs, stringMk_toList]
  · simp [List.all_cons, lowerHex_isHexDigitCh ha, lowerHex_isHexDigitCh hb,
      lowerHex_isHexDigitCh hc, lowerHex_isHexDigitCh hd, lowerHex_isHexDigitCh he,
      lowerHex_isHexDigitCh hf]

lemma hex_to_rgb_canon {s : String} (h : isCanonHex s = true) :
    ∃ a b c d e f, s.toList = ['#', a, b, c, d, e, f] ∧
      lowerHex a = true ∧ lowerHex b = true ∧ lowerHex c = true ∧
      lowerHex d = true ∧ lowerHex e = true ∧ lowerHex f = true ∧
      hex_to_rgb s = (hexPair a b, hexPair c d, hexPair e f) := by
  obtain ⟨cs, hs, hlen, hall⟩ := isCanonHex_elim h
  obtain ⟨a, b, c, d, e, f, rfl⟩ := six_of_length hlen
  simp only [List.all_cons, Bool.and_eq_true, List.all_nil, Bool.and_true] at hall
  obtain ⟨ha, hb, hc, hd, he, hf⟩ := hall
  refine ⟨a, b, c, d, e, f, hs, ha, hb, hc, hd, he, hf, ?_⟩
  unfold hex_to_rgb
  rw [hs]
  rw [List.dropWhile_cons]
  simp only [show (('#' : Char) == '#') = true from rfl, if_true]
  rw [dropWhile_head_false (fun x => x == '#') a [b, c, d, e, f] (lowerHex_ne_hash ha)]

lemma hexPair_le {a b : Char} (ha : lowerHex a = true) (hb : lowerHex b = true) :
    hexPair a b ≤ 255 := by
  have h1 := hexVal_le_15 ha
  have h2 := hexVal_le_15 hb
  unfold hexPair
  omega

lemma hex_to_rgb_le {s : String} (h : isCanonHex s = true) :
    (hex_to_rgb s).1 ≤ 255 ∧ (hex_to_rgb s).2.1 ≤ 255 ∧ (hex_to_rgb s).2.2 ≤ 255 := by
  obtain ⟨a, b, c, d, e, f, _, ha, hb, hc, hd, he, hf, hrgb⟩ := hex_to_rgb_canon h
  rw [hrgb]
  exact ⟨hexPair_le ha hb, hexPair_le hc hd, hexPair_le he hf⟩

lemma isCanonHex_rgb_to_hex {r g b : ℤ} (hr : r ≤ 255) (hg : g ≤ 255) (hb : b ≤ 255) :
    isCanonHex (rgb_to_hex r g b) = true := by
  unfold rgb_to_hex byteHex
  rw [isCanonHex_mk]
  have h1 : r.toNat / 16 < 16 := by omega
  have h2 : r.toNat % 16 < 16 := by omega
  have h3 : g.toNat / 16 < 16 := by omega
  have h4 : g.toNat % 16 < 16 := by omega
  have h5 : b.toNat / 16 < 16 := by omega
  have h6 : b.toNat % 16 < 16 := by omega
  simp [List.cons_append, List.nil_append, hexCharOf_lowerHex h1, hexCharOf_lowerHex h2,
    hexCharOf_lowerHex h3, hexCharOf_lowerHex h4, hexCharOf_lowerHex h5,
    hexCharOf_lowerHex h6]

lemma uniqueCandidates_canonical (cands : List String) :
    ∀ t ∈ uniqueCandidates cands, isCanonHex t = true := by
  unfold uniqueCandidates
  suffices hgen : ∀ (l : List String) (acc : List String),
      (∀ t ∈ acc, isCanonHex t = true) → ∀ t ∈ List.foldl ucStep acc l, isCanonHex t = true by
    exact hgen cands [] (by simp)
  intro l
  induction l with
  | nil => intro acc hacc; simpa using hacc
  | cons c rest ih =>
    intro acc hacc
    simp only [List.foldl_cons]
    apply ih
    unfold ucStep
    split
    · exact hacc
    · next n hn =>
      split
      · exact hacc
      · intro t ht
        rcases List.mem_append.mp ht with h1 | h1
        · exact hacc t h1
        · rw [List.mem_singleton.mp h1]
          exact normalize_hex_canonical hn

/-! ### Stable argmax properties of pyMaxBy -/

lemma pyMaxBy_mem (f : String → ℝ) :
    ∀ (l : List String) (best : String), pyMaxBy f best l = best ∨ pyMaxBy f best l ∈ l := by
  intro l
  induction l with
  | nil =>
    intro best
    left
    rfl
  | cons c rest ih =>
    intro best
    simp only [pyMaxBy]
    by_cases hf : f best < f c
    · rw [if_pos hf]
      rcases ih c with h | h
      · right
        rw [h]
        exact List.mem_cons_self c rest
      · right
        exact List.mem_cons_of_mem c h
    · rw [if_neg hf]
      rcases ih best with h | h
      · left
        exact h
      · right
        exact List.mem_cons_of_mem c h

lemma pyMaxBy_le (f : String → ℝ) :
    ∀ (l : List String) (best : String), ∀ x ∈ best :: l, f x ≤ f (pyMaxBy f best l) := by
  intro l
  induction l with
  | nil =>
    intro best x hx
    rw [List.mem_singleton.mp hx]
    exact le_refl _
  | cons c rest ih =>
    intro best x hx
    simp only [pyMaxBy]
    have hb : f best ≤ f (if f best < f c then c else best) := by
      by_cases hf : f best < f c
      · rw [if_pos hf]
        linarith
      · rw [if_neg hf]
    have hc : f c ≤ f (if f best < f c then c else best) := by
      by_cases hf : f best < f c
      · rw [if_pos hf]
      · rw [if_neg hf]
        linarith [not_lt.mp hf]
    have hbig := ih (if f best < f c then c else best)
    have hhead : f (if f best < f c then c else best) ≤
        f (pyMaxBy f (if f best < f c then c else best) rest) :=
      hbig _ (List.mem_cons_self _ _)
    rcases List.mem_cons.mp hx with rfl | hx1
    · linarith
    rcases List.mem_cons.mp hx1 with rfl | hx2
    · linarith
    · exact hbig x (List.mem_cons_of_mem _ hx2)

lemma pyMaxBy_first (f : String → ℝ) :
    ∀ (l : List String) (best : String), ∃ n, (best :: l).get? n = some (pyMaxBy f best l) ∧
      ∀ x ∈ (best :: l).take n, f x < f (pyMaxBy f best l) := by
  intro l
  induction l with
  | nil =>
    intro best
    exact ⟨0, rfl, by simp⟩
  | cons c rest ih =>
    intro best
    simp only [pyMaxBy]
    by_cases hf : f best < f c
    · rw [if_pos hf]
      obtain ⟨n, hn, htake⟩ := ih c
      refine ⟨n + 1, by simpa using hn, ?_⟩
      intro x hx
      rw [List.take_succ_cons] at hx
      rcases List.mem_cons.mp hx with rfl | hx1
      · have h1 : f c ≤ f (pyMaxBy f c rest) := pyMaxBy_le f rest c c (List.mem_cons_self _ _)
        linarith
      · exact htake x hx1
    · rw [if_neg hf]
      obtain ⟨n, hn, htake⟩ := ih best
      cases n with
      | zero =>
        refine ⟨0, by simpa using hn, by simp⟩
      | succ m =>
        refine ⟨m + 2, by simpa using hn, ?_⟩
        intro x hx
        rw [List.take_succ_cons, List.take_succ_cons] at hx
        rcases List.mem_cons.mp hx with rfl | hx1
        · apply htake
          rw [List.take_succ_cons]
          exact List.mem_cons_self _ _
        rcases List.mem_cons.mp hx1 with rfl | hx2
        · have h1 : f best < f (pyMaxBy f best rest) := by
            apply htake
            rw [List.take_succ_cons]
            exact List.mem_cons_self _ _
          push_neg at hf
          linarith
        · apply htake
          rw [List.take_succ_cons]
          exact List.mem_cons_of_mem _ hx2

/-! ### Gray fixed point of the booster -/

lemma relative_luminance_gray {s : String} {n : ℕ} (h : hex_to_rgb s = (n, n, n)) :
    relative_luminance s = channel_to_linear n := by
  unfold relative_luminance
  rw [h]
  show 0.2126 * channel_to_linear n + 0.7152 * channel_to_linear n
      + 0.0722 * channel_to_linear n = channel_to_linear n
  ring

lemma boost_gray {s : String} {n : ℕ} (hn : n ≤ 255) (h : hex_to_rgb s = (n, n, n))
    {f : ℝ} (hf : ¬ f ≤ 1) :
    boost_saturation_preserve_luminance s f = rgb_to_hex (n : ℤ) (n : ℤ) (n : ℤ) := by
  unfold boost_saturation_preserve_luminance
  rw [if_neg hf]
  have hy := relative_luminance_gray h
  have htr : ∀ k, trCh (relative_luminance s) (channel_to_linear n) k = channel_to_linear n := by
    intro k
    unfold trCh
    rw [hy]
    ring
  simp only [h]
  show rgb_to_hex (linear_to_channel (trCh (relative_luminance s) (channel_to_linear n) _))
      (linear_to_channel (trCh (relative_luminance s) (channel_to_linear n) _))
      (linear_to_channel (trCh (relative_luminance s) (channel_to_linear n) _)) = _
  rw [htr, roundtrip_aux n hn]

/-! ### Concrete luminance values and evaluation helpers -/

noncomputable section

lemma lum_black : relative_luminance "#000000" = 0 := by
  unfold relative_luminance
  rw [show hex_to_rgb "#000000" = (0, 0, 0) from by decide]
  show 0.2126 * channel_to_linear 0 + 0.7152 * channel_to_linear 0
      + 0.0722 * channel_to_linear 0 = 0
  rw [lin0]
  ring

lemma lum_white : relative_luminance "#ffffff" = 1 := by
  unfold relative_luminance
  rw [show hex_to_rgb "#ffffff" = (255, 255, 255) from by decide]
  show 0.2126 * channel_to_linear 255 + 0.7152 * channel_to_linear 255
      + 0.0722 * channel_to_linear 255 = 1
  rw [lin255]
  ring

/-- Helper for evaluating blend at concrete byte triples. -/
lemma blend_eval (a b : String) (ar ag ab2 br bg bb2 : ℕ) (t : ℝ) (r g b2 : ℤ)
    (ha : hex_to_rgb a = (ar, ag, ab2)) (hb : hex_to_rgb b = (br, bg, bb2))
    (hr : pyRound ((ar : ℝ) + ((br : ℝ) - (ar : ℝ)) * t) = r)
    (hg : pyRound ((ag : ℝ) + ((bg : ℝ) - (ag : ℝ)) * t) = g)
    (hb2 : pyRound ((ab2 : ℝ) + ((bb2 : ℝ) - (ab2 : ℝ)) * t) = b2) :
    blend a b t = rgb_to_hex r g b2 := by
  unfold blend
  rw [ha, hb]
  show rgb_to_hex (pyRound ((ar : ℝ) + ((br : ℝ) - (ar : ℝ)) * t))
      (pyRound ((ag : ℝ) + ((bg : ℝ) - (ag : ℝ)) * t))
      (pyRound ((ab2 : ℝ) + ((bb2 : ℝ) - (ab2 : ℝ)) * t)) = _
  rw [hr, hg, hb2]

/-- The pre-correction scaling factor of scale_luminance. -/
def preFactor (color : String) (t : ℝ) : ℝ := t / relative_luminance color

/-- The largest pre-correction scaled linear channel. -/
def maxScaled (color : String) (t : ℝ) : ℝ :=
  max (max (channel_to_linear (hex_to_rgb color).1 * preFactor color t)
    (channel_to_linear (hex_to_rgb color).2.1 * preFactor color t))
    (channel_to_linear (hex_to_rgb color).2.2 * preFactor color t)

lemma scaleFactor_eq (color : String) (t : ℝ) :
    scaleFactor color t =
      if 1 < maxScaled color t then preFactor color t / maxScaled color t
      else preFactor color t := rfl

end

/-! ### Claim C9 -/

/-- C9: encode(decode(n)) = n exactly for every byte n in 0..255, where
decode is channel_to_linear (sRGB transfer) and encode is linear_to_channel
(inverse transfer with clamping and rounding), in the exact-real model of
the source's float arithmetic. -/
theorem c9_encode_decode_roundtrip (n : ℕ) (hn : n ≤ 255) :
    linear_to_channel (channel_to_linear n) = (n : ℤ) :=
  roundtrip_aux n hn

theorem c9_encode_decode_roundtrip_witness :
    128 ≤ 255 ∧ linear_to_channel (channel_to_linear 128) = (128 : ℤ) :=
  ⟨by norm_num, c9_encode_decode_roundtrip 128 (by norm_num)⟩

/-! ### Claim C7 -/

/-- C7: scale_luminance is range-safe — each of its three re-encoded
channels lies in 0..255 for every input color and target — and any
near-black input (relative luminance below 0.001) is returned unchanged,
short-circuiting the division. -/
theorem c7_scale_luminance_safe (color : String) (target : ℝ) :
    (0 ≤ linear_to_channel (scaleTriple color target).1 ∧
      linear_to_channel (scaleTriple color target).1 ≤ 255) ∧
    (0 ≤ linear_to_channel (scaleTriple color target).2.1 ∧
      linear_to_channel (scaleTriple color target).2.1 ≤ 255) ∧
    (0 ≤ linear_to_channel (scaleTriple color target).2.2 ∧
      linear_to_channel (scaleTriple color target).2.2 ≤ 255) ∧
    (relative_luminance color < 0.001 → scale_luminance color target = color) := by
  refine ⟨l2c_range _, l2c_range _, l2c_range _, ?_⟩
  intro h
  unfold scale_luminance
  rw [if_pos h]

theorem c7_scale_luminance_safe_witness :
    relative_luminance "#000000" < 0.001 ∧ scale_luminance "#000000" 0.5 = "#000000" := by
  have h : relative_luminance "#000000" < 0.001 := by
    rw [lum_black]
    norm_num
  exact ⟨h, (c7_scale_luminance_safe "#000000" 0.5).2.2.2 h⟩

/-! ### Claim C10 -/

/-- C10: for a color with luminance at least 0.001 and a nonnegative
target, the linear luminance of scale_luminance's pre-encoding triple never
exceeds the target; it equals the target exactly when no scaled channel
overflows 1, and is strictly below the target when the overflow correction
engages. -/
theorem c10_scale_undershoot (color : String) (target : ℝ)
    (hlum : 0.001 ≤ relative_luminance color) (htgt : 0 ≤ target) :
    (0.2126 * (scaleTriple color target).1 + 0.7152 * (scaleTriple color target).2.1
        + 0.0722 * (scaleTriple color target).2.2 ≤ target) ∧
    (¬ 1 < maxScaled color target →
      0.2126 * (scaleTriple color target).1 + 0.7152 * (scaleTriple color target).2.1
        + 0.0722 * (scaleTriple color target).2.2 = target) ∧
    (1 < maxScaled color target →
      0.2126 * (scaleTriple color target).1 + 0.7152 * (scaleTriple color target).2.1
        + 0.0722 * (scaleTriple color target).2.2 < target) := by
  have hL : (0 : ℝ) < relative_luminance color := by linarith
  have hsum : 0.2126 * (scaleTriple color target).1 + 0.7152 * (scaleTriple color target).2.1
      + 0.0722 * (scaleTriple color target).2.2
      = relative_luminance color * scaleFactor color target := by
    unfold scaleTriple relative_luminance
    ring
  have heqcase : ¬ 1 < maxScaled color target →
      relative_luminance color * scaleFactor color target = target := by
    intro hno
    rw [scaleFactor_eq, if_neg hno]
    unfold preFactor
    field_simp
  have hltcase : 1 < maxScaled color target →
      relative_luminance color * scaleFactor color target < target := by
    intro hyes
    have hm0 : (0 : ℝ) < maxScaled color target := by linarith
    have htpos : 0 < target := by
      by_contra htz
      push_neg at htz
      have ht0 : target = 0 := le_antisymm htz htgt
      have hpf : preFactor color target = 0 := by
        unfold preFactor
        rw [ht0, zero_div]
      have hm : maxScaled color target = 0 := by
        unfold maxScaled
        rw [hpf]
        simp
      linarith
    rw [scaleFactor_eq, if_pos hyes]
    have hLmul : relative_luminance color *
        (preFactor color target / maxScaled color target)
        = target / maxScaled color target := by
      unfold preFactor
      field_simp
      ring
    rw [hLmul]
    exact div_lt_self htpos hyes
  refine ⟨?_, ?_, ?_⟩
  · rw [hsum]
    by_cases hov : 1 < maxScaled color target
    · exact le_of_lt (hltcase hov)
    · exact le_of_eq (heqcase hov)
  · intro hno
    rw [hsum]
    exact heqcase hno
  · intro hyes
    rw [hsum]
    exact hltcase hyes

theorem c10_scale_undershoot_witness :
    (0.001 : ℝ) ≤ relative_luminance "#ffffff" ∧ (0 : ℝ) ≤ (0.5 : ℝ) ∧
    (0.2126 * (scaleTriple "#ffffff" 0.5).1 + 0.7152 * (scaleTriple "#ffffff" 0.5).2.1
      + 0.0722 * (scaleTriple "#ffffff" 0.5).2.2 ≤ 0.5) := by
  have h1 : (0.001 : ℝ) ≤ relative_luminance "#ffffff" := by
    rw [lum_white]
    norm_num
  exact ⟨h1, by norm_num, (c10_scale_undershoot "#ffffff" 0.5 h1 (by norm_num)).1⟩

/-! ### Lookup of the accent slots in the emitted mapping -/

lemma lookup_red (p : GhosttyParsed) :
    (build_starship_palette p).lookup "color_red" = some (finalRed p) := by
  unfold build_starship_palette
  simp [List.lookup]

lemma lookup_green (p : GhosttyParsed) :
    (build_starship_palette p).lookup "color_green" = some (finalGreen p) := by
  unfold build_starship_palette
  simp [List.lookup]

lemma lookup_yellow (p : GhosttyParsed) :
    (build_starship_palette p).lookup "color_yellow" = some (finalYellow p) := by
  unfold build_starship_palette
  simp [List.lookup]

lemma lookup_blue (p : GhosttyParsed) :
    (build_starship_palette p).lookup "color_blue" = some (finalBlue p) := by
  unfold build_starship_palette
  simp [List.lookup]

lemma lookup_purple (p : GhosttyParsed) :
    (build_starship_palette p).lookup "color_purple" = some (finalPurple p) := by
  unfold build_starship_palette
  simp [List.lookup]

lemma lookup_aqua (p : GhosttyParsed) :
    (build_starship_palette p).lookup "color_aqua" = some (finalAqua p) := by
  unfold build_starship_palette
  simp [List.lookup]

lemma lookup_orange (p : GhosttyParsed) :
    (build_starship_palette p).lookup "color_orange" = some (finalOrange p) := by
  unfold build_starship_palette
  simp [List.lookup]

lemma applyAccent_light {background c : String}
    (h : DARK_BACKGROUND_LUMINANCE_THRESHOLD ≤ relative_luminance background) :
    applyAccentPipeline background c = c := by
  unfold applyAccentPipeline
  rw [if_neg (not_lt.mpr h)]

lemma lin241_lum_ge : (0.26 : ℝ) ≤ relative_luminance "#fbf1c7" := by
  unfold relative_luminance
  rw [show hex_to_rgb "#fbf1c7" = (251, 241, 199) from by decide]
  show (0.26 : ℝ) ≤ 0.2126 * channel_to_linear 251 + 0.7152 * channel_to_linear 241
      + 0.0722 * channel_to_linear 199
  have h1 := lin241_lb
  have h2 := lin_nonneg 251
  have h3 := lin_nonneg 199
  linarith

/-! ### Claim C4 -/

/-- C4: when the background's relative luminance is at or above the 0.26
threshold, all seven accents of the emitted palette equal their
pre-correction (fallback-resolved, and for orange pre-blended) values:
no boost, clamp or contrast fix is applied. -/
theorem c4_light_theme_passthrough (p : GhosttyParsed)
    (h : DARK_BACKGROUND_LUMINANCE_THRESHOLD ≤ relative_luminance (rawBackground p)) :
    (build_starship_palette p).lookup "color_red" = some (rawRed p) ∧
    (build_starship_palette p).lookup "color_green" = some (rawGreen p) ∧
    (build_starship_palette p).lookup "color_yellow" = some (rawYellow p) ∧
    (build_starship_palette p).lookup "color_blue" = some (rawBlue p) ∧
    (build_starship_palette p).lookup "color_purple" = some (rawPurple p) ∧
    (build_starship_palette p).lookup "color_aqua" = some (rawAqua p) ∧
    (build_starship_palette p).lookup "color_orange" = some (rawOrange p) := by
  refine ⟨?_, ?_, ?_, ?_, ?_, ?_, ?_⟩
  · rw [lookup_red]
    unfold finalRed
    rw [applyAccent_light h]
  · rw [lookup_green]
    unfold finalGreen
    rw [applyAccent_light h]
  · rw [lookup_yellow]
    unfold finalYellow
    rw [applyAccent_light h]
  · rw [lookup_blue]
    unfold finalBlue
    rw [applyAccent_light h]
  · rw [lookup_purple]
    unfold finalPurple
    rw [applyAccent_light h]
  · rw [lookup_aqua]
    unfold finalAqua
    rw [applyAccent_light h]
  · rw [lookup_orange]
    unfold finalOrange
    rw [applyAccent_light h]

/-- The light-theme input used as the C4 witness: only a light background
is supplied. -/
def lightInput : GhosttyParsed :=
  ⟨none, some "#fbf1c7", none, fun _ => none⟩

theorem c4_light_theme_passthrough_witness :
    DARK_BACKGROUND_LUMINANCE_THRESHOLD ≤ relative_luminance (rawBackground lightInput) ∧
    (build_starship_palette lightInput).lookup "color_red" = some "#cc241d" ∧
    (build_starship_palette lightInput).lookup "color_orange"
      = some (blend "#cc241d" "#d79921" 0.5) := by
  have hbg : rawBackground lightInput = "#fbf1c7" := rfl
  have h : DARK_BACKGROUND_LUMINANCE_THRESHOLD ≤ relative_luminance (rawBackground lightInput) := by
    rw [hbg]
    exact lin241_lum_ge
  obtain ⟨h1, _, _, _, _, _, h7⟩ := c4_light_theme_passthrough lightInput h
  refine ⟨h, ?_, ?_⟩
  · rw [h1]
    rfl
  · rw [h7]
    rfl

/-! ### Claim C8 -/

lemma contrast_black_white : contrast_ratio "#000000" "#ffffff" = 21 := by
  unfold contrast_ratio
  rw [lum_black, lum_white]
  norm_num

lemma contrast_black_black : contrast_ratio "#000000" "#000000" = 1 := by
  unfold contrast_ratio
  rw [lum_black]
  norm_num

lemma bct_concrete : best_contrast_text "#000000" ["#ffffff", "#000000"] = "#ffffff" := by
  unfold best_contrast_text
  rw [show uniqueCandidates ["#ffffff", "#000000"] = ["#ffffff", "#000000"] from by decide]
  show pyMaxBy (fun color => contrast_ratio "#000000" color) "#ffffff" ["#000000"] = "#ffffff"
  simp only [pyMaxBy]
  rw [if_neg]
  rw [contrast_black_white, contrast_black_black]
  norm_num

/-- C8: best_contrast_text returns, from the deduplicated order-preserving
candidate list, a stable argmax of contrast against the surface (every
candidate's contrast is no larger, and every candidate strictly before the
result in the list has strictly smaller contrast); an empty deduplicated
list yields pure white; and on surface black with candidates white and
black it picks white. -/
theorem c8_best_contrast_argmax (bg : String) (cands : List String) :
    (uniqueCandidates cands = [] → best_contrast_text bg cands = "#ffffff") ∧
    (∀ x ∈ uniqueCandidates cands,
      contrast_ratio bg x ≤ contrast_ratio bg (best_contrast_text bg cands)) ∧
    (uniqueCandidates cands ≠ [] → ∃ n,
      (uniqueCandidates cands).get? n = some (best_contrast_text bg cands) ∧
      ∀ x ∈ (uniqueCandidates cands).take n,
        contrast_ratio bg x < contrast_ratio bg (best_contrast_text bg cands)) ∧
    best_contrast_text "#000000" ["#ffffff", "#000000"] = "#ffffff" := by
  cases huc : uniqueCandidates cands with
  | nil =>
    refine ⟨fun _ => ?_, ?_, fun hne => absurd rfl hne, bct_concrete⟩
    · unfold best_contrast_text
      rw [huc]
    · intro x hx
      exact absurd hx (List.not_mem_nil x)
  | cons c rest =>
    have hbct : best_contrast_text bg cands
        = pyMaxBy (fun color => contrast_ratio bg color) c rest := by
      unfold best_contrast_text
      rw [huc]
    refine ⟨fun hemp => by simp at hemp, ?_, fun _ => ?_, bct_concrete⟩
    · intro x hx
      rw [hbct]
      exact pyMaxBy_le (fun color => contrast_ratio bg color) rest c x hx
    · obtain ⟨n, hn, htake⟩ := pyMaxBy_first (fun color => contrast_ratio bg color) rest c
      refine ⟨n, ?_, ?_⟩
      · rw [hbct]
        exact hn
      · rw [hbct]
        exact htake

theorem c8_best_contrast_argmax_witness :
    uniqueCandidates ["#ffffff", "#000000"] ≠ [] ∧
    (∃ n, (uniqueCandidates ["#ffffff", "#000000"]).get? n
        = some (best_contrast_text "#000000" ["#ffffff", "#000000"]) ∧
      ∀ x ∈ (uniqueCandidates ["#ffffff", "#000000"]).take n,
        contrast_ratio "#000000" x
          < contrast_ratio "#000000" (best_contrast_text "#000000" ["#ffffff", "#000000"])) ∧
    best_contrast_text "#000000" ["#ffffff", "#000000"] = "#ffffff" := by
  have hne : uniqueCandidates ["#ffffff", "#000000"] ≠ [] := by decide
  obtain ⟨-, -, h3, h4⟩ := c8_best_contrast_argmax "#000000" ["#ffffff", "#000000"]
  exact ⟨hne, h3 hne, h4⟩

/-! ### Claim C6 -/

/-- C6 (amended): an absent accent slot or an absent foreground/background
gets its fixed documented fallback constant; an absent selection background
falls back to the dynamic blend(background, foreground, 0.25), which is a
constant only when background and foreground are themselves defaulted. -/
theorem c6_fallback_constants (p : GhosttyParsed) :
    (p.palette 1 = none → rawRed p = "#cc241d") ∧
    (p.palette 2 = none → rawGreen p = "#98971a") ∧
    (p.palette 3 = none → rawYellow p = "#d79921") ∧
    (p.palette 4 = none → rawBlue p = "#458588") ∧
    (p.palette 5 = none → rawPurple p = "#b16286") ∧
    (p.palette 6 = none → rawAqua p = "#689d6a") ∧
    (p.foreground = none → p.palette 7 = none → rawForeground p = "#fbf1c7") ∧
    (p.background = none → p.palette 0 = none → rawBackground p = "#3c3836") ∧
    (p.selection_background = none → p.palette 8 = none →
      rawSelection p = blend (rawBackground p) (rawForeground p) 0.25) := by
  refine ⟨?_, ?_, ?_, ?_, ?_, ?_, ?_, ?_, ?_⟩
  · intro h
    unfold rawRed
    rw [h]
    rfl
  · intro h
    unfold rawGreen
    rw [h]
    rfl
  · intro h
    unfold rawYellow
    rw [h]
    rfl
  · intro h
    unfold rawBlue
    rw [h]
    rfl
  · intro h
    unfold rawPurple
    rw [h]
    rfl
  · intro h
    unfold rawAqua
    rw [h]
    rfl
  · intro h1 h2
    unfold rawForeground
    rw [h1, h2]
    rfl
  · intro h1 h2
    unfold rawBackground
    rw [h1, h2]
    rfl
  · intro h1 h2
    unfold rawSelection
    rw [h1, h2]
    rfl

/-- Input with explicit black background and white foreground, selection
background absent. -/
def cxSelA : GhosttyParsed := ⟨some "#ffffff", some "#000000", none, fun _ => none⟩

/-- Fully defaulted input, selection background also absent. -/
def cxSelB : GhosttyParsed := ⟨none, none, none, fun _ => none⟩

/-- C6 counterexample: two inputs with the selection-background slot absent
receive different substituted values, so that slot's fallback is not a
fixed constant color. -/
theorem c6_fallback_constants_counterexample :
    cxSelA.selection_background = none ∧ cxSelB.selection_background = none ∧
    rawSelection cxSelA = "#404040" ∧ rawSelection cxSelB = "#6c665a" ∧
    rawSelection cxSelA ≠ rawSelection cxSelB := by
  have hA : rawSelection cxSelA = blend "#000000" "#ffffff" 0.25 := rfl
  have hB : rawSelection cxSelB = blend "#3c3836" "#fbf1c7" 0.25 := rfl
  have hAv : rawSelection cxSelA = "#404040" := by
    rw [hA, blend_eval "#000000" "#ffffff" 0 0 0 255 255 255 0.25 64 64 64
      (by decide) (by decide)
      (by apply pyRound_eq_of <;> push_cast <;> norm_num)
      (by apply pyRound_eq_of <;> push_cast <;> norm_num)
      (by apply pyRound_eq_of <;> push_cast <;> norm_num)]
    decide
  have hBv : rawSelection cxSelB = "#6c665a" := by
    rw [hB, blend_eval "#3c3836" "#fbf1c7" 60 56 54 251 241 199 0.25 108 102 90
      (by decide) (by decide)
      (by apply pyRound_eq_of <;> push_cast <;> norm_num)
      (by apply pyRound_eq_of <;> push_cast <;> norm_num)
      (by apply pyRound_eq_of <;> push_cast <;> norm_num)]
    decide
  refine ⟨rfl, rfl, hAv, hBv, ?_⟩
  rw [hAv, hBv]
  decide

theorem c6_fallback_constants_witness :
    cxSelB.palette 1 = none ∧ rawRed cxSelB = "#cc241d" ∧
    cxSelB.foreground = none ∧ cxSelB.palette 7 = none ∧ rawForeground cxSelB = "#fbf1c7" ∧
    cxSelB.selection_background = none ∧ cxSelB.palette 8 = none ∧
    rawSelection cxSelB = blend (rawBackground cxSelB) (rawForeground cxSelB) 0.25 := by
  obtain ⟨h1, -, -, -, -, -, h7, -, h9⟩ := c6_fallback_constants cxSelB
  exact ⟨rfl, h1 rfl, rfl, rfl, h7 rfl rfl, rfl, rfl, h9 rfl rfl⟩

/-! ### Canonicality propagation through the pipeline -/

lemma canon_not_empty {s : String} (h : isCanonHex s = true) : s.toList.isEmpty = false := by
  obtain ⟨cs, hs, -, -⟩ := isCanonHex_elim h
  rw [hs]
  rfl

lemma pyOrOpt_some_canon {s : String} (hs : isCanonHex s = true) :
    pyOrOpt (some s) = some s := by
  show (if s.toList.isEmpty = true then none else some s) = some s
  rw [canon_not_empty hs]
  simp

lemma orDefault_none (d : String) : orDefault none d = d := rfl

lemma orDefault_some_canon {s : String} (hs : isCanonHex s = true) (d : String) :
    orDefault (some s) d = s := by
  unfold orDefault
  rw [pyOrOpt_some_canon hs]

lemma orOrDefault_none (b : Option String) (d : String) :
    orOrDefault none b d = orDefault b d := rfl

lemma orOrDefault_some_canon {s : String} (hs : isCanonHex s = true) (b : Option String)
    (d : String) : orOrDefault (some s) b d = s := by
  unfold orOrDefault
  rw [pyOrOpt_some_canon hs]

lemma orDefault_canon {a : Option String} {d : String}
    (ha : ∀ s, a = some s → isCanonHex s = true) (hd : isCanonHex d = true) :
    isCanonHex (orDefault a d) = true := by
  cases a with
  | none =>
    rw [orDefault_none]
    exact hd
  | some s =>
    rw [orDefault_some_canon (ha s rfl)]
    exact ha s rfl

lemma orOrDefault_canon {a b : Option String} {d : String}
    (ha : ∀ s, a = some s → isCanonHex s = true)
    (hb : ∀ s, b = some s → isCanonHex s = true) (hd : isCanonHex d = true) :
    isCanonHex (orOrDefault a b d) = true := by
  cases a with
  | none =>
    rw [orOrDefault_none]
    exact orDefault_canon hb hd
  | some s =>
    rw [orOrDefault_some_canon (ha s rfl)]
    exact ha s rfl

lemma blend_channel_range (x y : ℕ) (hx : x ≤ 255) (hy : y ≤ 255) (t : ℝ)
    (h0 : 0 ≤ t) (h1 : t ≤ 1) :
    0 ≤ pyRound ((x : ℝ) + ((y : ℝ) - (x : ℝ)) * t) ∧
      pyRound ((x : ℝ) + ((y : ℝ) - (x : ℝ)) * t) ≤ 255 := by
  have hxr : (x : ℝ) ≤ 255 := by exact_mod_cast hx
  have hyr : (y : ℝ) ≤ 255 := by exact_mod_cast hy
  have hx0 : (0 : ℝ) ≤ (x : ℝ) := by positivity
  have hy0 : (0 : ℝ) ≤ (y : ℝ) := by positivity
  have := pyRound_range ((x : ℝ) + ((y : ℝ) - (x : ℝ)) * t) 0 255
    (by push_cast; nlinarith) (by push_cast; nlinarith)
  exact this

lemma blend_canon {a b : String} (ha : isCanonHex a = true) (hb : isCanonHex b = true)
    {t : ℝ} (h0 : 0 ≤ t) (h1 : t ≤ 1) : isCanonHex (blend a b t) = true := by
  obtain ⟨har, hag, hab⟩ := hex_to_rgb_le ha
  obtain ⟨hbr, hbg, hbb⟩ := hex_to_rgb_le hb
  unfold blend
  apply isCanonHex_rgb_to_hex
  · exact (blend_channel_range _ _ har hbr t h0 h1).2
  · exact (blend_channel_range _ _ hag hbg t h0 h1).2
  · exact (blend_channel_range _ _ hab hbb t h0 h1).2

lemma boost_canon {c : String} (hc : isCanonHex c = true) (f : ℝ) :
    isCanonHex (boost_saturation_preserve_luminance c f) = true := by
  unfold boost_saturation_preserve_luminance
  by_cases hf : f ≤ 1
  · rw [if_pos hf]
    exact hc
  · rw [if_neg hf]
    apply isCanonHex_rgb_to_hex <;> exact (l2c_range _).2

lemma scale_canon {c : String} (hc : isCanonHex c = true) (t : ℝ) :
    isCanonHex (scale_luminance c t) = true := by
  unfold scale_luminance
  by_cases h : relative_luminance c < 0.001
  · rw [if_pos h]
    exact hc
  · rw [if_neg h]
    apply isCanonHex_rgb_to_hex <;> exact (l2c_range _).2

lemma clampLum_canon {c : String} (hc : isCanonHex c = true) :
    isCanonHex (clampLum c) = true := by
  unfold clampLum
  by_cases h : DARK_ACCENT_MAX_LUMINANCE < relative_luminance c
  · rw [if_pos h]
    exact scale_canon hc _
  · rw [if_neg h]
    exact hc

lemma ensureContrast_canon {bg c : String} (hc : isCanonHex c = true) :
    isCanonHex (ensureContrast bg c) = true := by
  unfold ensureContrast
  by_cases h : contrast_ratio c bg < DARK_ACCENT_MIN_CONTRAST
  · rw [if_pos h]
    exact scale_canon hc _
  · rw [if_neg h]
    exact hc

lemma applyAccentPipeline_canon {bg c : String} (hc : isCanonHex c = true) :
    isCanonHex (applyAccentPipeline bg c) = true := by
  unfold applyAccentPipeline darkAccent
  by_cases h : relative_luminance bg < DARK_BACKGROUND_LUMINANCE_THRESHOLD
  · rw [if_pos h]
    exact ensureContrast_canon (clampLum_canon (boost_canon hc _))
  · rw [if_neg h]
    exact hc

lemma bct_canon (bg : String) (cands : List String) :
    isCanonHex (best_contrast_text bg cands) = true := by
  unfold best_contrast_text
  cases huc : uniqueCandidates cands with
  | nil =>
    show isCanonHex "#ffffff" = true
    decide
  | cons c rest =>
    show isCanonHex (pyMaxBy (fun color => contrast_ratio bg color) c rest) = true
    have hcanon := uniqueCandidates_canonical cands
    rcases pyMaxBy_mem (fun color => contrast_ratio bg color) rest c with h | h
    · rw [h]
      exact hcanon c (by rw [huc]; exact List.mem_cons_self _ _)
    · exact hcanon _ (by rw [huc]; exact List.mem_cons_of_mem _ h)

/-- The contract of load_ghostty_config: every stored color is canonical. -/
def WFInput (p : GhosttyParsed) : Prop :=
  (∀ s, p.foreground = some s → isCanonHex s = true) ∧
  (∀ s, p.background = some s → isCanonHex s = true) ∧
  (∀ s, p.selection_background = some s → isCanonHex s = true) ∧
  (∀ i s, p.palette i = some s → isCanonHex s = true)

/-! ### Claim C2 -/

/-- C2: on any well-formed parsed input, build_starship_palette emits the
19 fixed named slots, in order, every slot present, and every value a
canonical lowercase six-hex-digit color string; the core is total, with no
failure path. -/
theorem c2_complete_palette (p : GhosttyParsed) (hwf : WFInput p) :
    (build_starship_palette p).map Prod.fst =
      ["color_fg0", "color_bg1", "color_bg3", "color_on_bg1", "color_on_bg3",
       "color_on_blue", "color_on_aqua", "color_on_green", "color_on_orange",
       "color_on_purple", "color_on_red", "color_on_yellow", "color_blue", "color_aqua",
       "color_green", "color_orange", "color_purple", "color_red", "color_yellow"] ∧
    (build_starship_palette p).length = 19 ∧
    ∀ kv ∈ build_starship_palette p, isCanonHex kv.2 = true := by
  obtain ⟨hfg, hbg, hsel, hpal⟩ := hwf
  have hFG : isCanonHex (rawForeground p) = true := orOrDefault_canon hfg (hpal 7) (by decide)
  have hBG : isCanonHex (rawBackground p) = true := orOrDefault_canon hbg (hpal 0) (by decide)
  have hSEL : isCanonHex (rawSelection p) = true :=
    orOrDefault_canon hsel (hpal 8) (blend_canon hBG hFG (by norm_num) (by norm_num))
  have hR : isCanonHex (rawRed p) = true := orDefault_canon (hpal 1) (by decide)
  have hG : isCanonHex (rawGreen p) = true := orDefault_canon (hpal 2) (by decide)
  have hY : isCanonHex (rawYellow p) = true := orDefault_canon (hpal 3) (by decide)
  have hB : isCanonHex (rawBlue p) = true := orDefault_canon (hpal 4) (by decide)
  have hP : isCanonHex (rawPurple p) = true := orDefault_canon (hpal 5) (by decide)
  have hA : isCanonHex (rawAqua p) = true := orDefault_canon (hpal 6) (by decide)
  have hO : isCanonHex (rawOrange p) = true := blend_canon hR hY (by norm_num) (by norm_num)
  refine ⟨rfl, rfl, ?_⟩
  intro kv hkv
  unfold build_starship_palette at hkv
  simp only [List.mem_cons, List.not_mem_nil, or_false] at hkv
  rcases hkv with rfl | rfl | rfl | rfl | rfl | rfl | rfl | rfl | rfl | rfl | rfl | rfl |
    rfl | rfl | rfl | rfl | rfl | rfl | rfl
  · exact hFG
  · exact hBG
  · exact hSEL
  · exact bct_canon _ _
  · exact bct_canon _ _
  · exact bct_canon _ _
  · exact bct_canon _ _
  · exact bct_canon _ _
  · exact bct_canon _ _
  · exact bct_canon _ _
  · exact bct_canon _ _
  · exact bct_canon _ _
  · exact applyAccentPipeline_canon hB
  · exact applyAccentPipeline_canon hA
  · exact applyAccentPipeline_canon hG
  · exact applyAccentPipeline_canon hO
  · exact applyAccentPipeline_canon hP
  · exact applyAccentPipeline_canon hR
  · exact applyAccentPipeline_canon hY

theorem c2_complete_palette_witness :
    WFInput cxSelB ∧
    (build_starship_palette cxSelB).length = 19 ∧
    ∀ kv ∈ build_starship_palette cxSelB, isCanonHex kv.2 = true := by
  have hwf : WFInput cxSelB := by
    refine ⟨fun s h => ?_, fun s h => ?_, fun s h => ?_, fun i s h => ?_⟩ <;>
      simp [cxSelB] at h
  obtain ⟨-, h2, h3⟩ := c2_complete_palette cxSelB hwf
  exact ⟨hwf, h2, h3⟩

/-! ### Claim C5: the gamut-safe saturation boost -/

lemma affine_in_unit {y v : ℝ} {j k : ℝ} (h1j : 1 ≤ j) (hjk : j ≤ k)
    (hA0 : 0 ≤ y + (v - y) * 1) (hA1 : y + (v - y) * 1 ≤ 1)
    (hB0 : 0 ≤ y + (v - y) * k) (hB1 : y + (v - y) * k ≤ 1) :
    0 ≤ y + (v - y) * j ∧ y + (v - y) * j ≤ 1 := by
  rcases le_or_lt y v with hv | hv
  · constructor
    · nlinarith [mul_nonneg (sub_nonneg.mpr hv) (sub_nonneg.mpr h1j)]
    · nlinarith [mul_nonneg (sub_nonneg.mpr hv) (sub_nonneg.mpr hjk)]
  · constructor
    · nlinarith [mul_nonneg (sub_nonneg.mpr hv.le) (sub_nonneg.mpr hjk)]
    · nlinarith [mul_nonneg (sub_nonneg.mpr hv.le) (sub_nonneg.mpr h1j)]

lemma boostGamutP_one {c : String} (hc : isCanonHex c = true) : boostGamutP c 1 := by
  obtain ⟨h1, h2, h3⟩ := hex_to_rgb_le hc
  unfold boostGamutP trCh
  have e1 : ∀ v : ℝ, relative_luminance c + (v - relative_luminance c) * 1 = v := by
    intro v
    ring
  rw [e1, e1, e1]
  exact ⟨⟨lin_nonneg _, lin_le_one _ h1⟩, ⟨lin_nonneg _, lin_le_one _ h2⟩,
    ⟨lin_nonneg _, lin_le_one _ h3⟩⟩

lemma boostGamutP_down {c : String} (hc : isCanonHex c = true) {j k : ℝ}
    (h1j : 1 ≤ j) (hjk : j ≤ k) (hk : boostGamutP c k) : boostGamutP c j := by
  have hP1 := boostGamutP_one hc
  unfold boostGamutP trCh at hP1 hk ⊢
  obtain ⟨⟨a1, a2⟩, ⟨b1, b2⟩, ⟨d1, d2⟩⟩ := hP1
  obtain ⟨⟨a1', a2'⟩, ⟨b1', b2'⟩, ⟨d1', d2'⟩⟩ := hk
  have e1 : ∀ v : ℝ, (v : ℝ) = v + (v - v) * 1 := by
    intro v
    ring
  exact ⟨affine_in_unit h1j hjk (by linarith) (by linarith) a1' a2',
    affine_in_unit h1j hjk (by linarith) (by linarith) b1' b2',
    affine_in_unit h1j hjk (by linarith) (by linarith) d1' d2'⟩

lemma boostGamutP_closed (c : String) : IsClosed {k : ℝ | boostGamutP c k} := by
  have hct : ∀ v : ℝ, Continuous (fun k : ℝ => trCh (relative_luminance c) v k) := by
    intro v
    unfold trCh
    exact continuous_const.add (continuous_const.mul continuous_id)
  have hdec : {k : ℝ | boostGamutP c k} =
      ({k : ℝ | 0 ≤ trCh (relative_luminance c) (channel_to_linear (hex_to_rgb c).1) k} ∩
       {k : ℝ | trCh (relative_luminance c) (channel_to_linear (hex_to_rgb c).1) k ≤ 1}) ∩
      (({k : ℝ | 0 ≤ trCh (relative_luminance c) (channel_to_linear (hex_to_rgb c).2.1) k} ∩
        {k : ℝ | trCh (relative_luminance c) (channel_to_linear (hex_to_rgb c).2.1) k ≤ 1}) ∩
       ({k : ℝ | 0 ≤ trCh (relative_luminance c) (channel_to_linear (hex_to_rgb c).2.2) k} ∩
        {k : ℝ | trCh (relative_luminance c) (channel_to_linear (hex_to_rgb c).2.2) k ≤ 1})) := by
    ext k
    simp only [boostGamutP, Set.mem_inter_iff, Set.mem_setOf_eq]
  rw [hdec]
  exact ((isClosed_le continuous_const (hct _)).inter
      (isClosed_le (hct _) continuous_const)).inter
    (((isClosed_le continuous_const (hct _)).inter
      (isClosed_le (hct _) continuous_const)).inter
     ((isClosed_le continuous_const (hct _)).inter
      (isClosed_le (hct _) continuous_const)))

/-- C5 (amended): boost is a no-op at factor up to 1; the transform
preserves linear relative luminance at every scale; and for factor above 1
the result re-encodes the transform at the bisection's low end, which is
in gamut and within (factor-1)/2^20 below the largest in-gamut scale
(so within sub-1/255 of it whenever (factor-1)/2^20 < 1/255, as for the
program's 1.35). -/
theorem c5_boost_gamut_search (c : String) (hc : isCanonHex c = true) (f : ℝ) :
    (f ≤ 1 → boost_saturation_preserve_luminance c f = c) ∧
    (∀ k : ℝ, 0.2126 * trCh (relative_luminance c) (channel_to_linear (hex_to_rgb c).1) k
      + 0.7152 * trCh (relative_luminance c) (channel_to_linear (hex_to_rgb c).2.1) k
      + 0.0722 * trCh (relative_luminance c) (channel_to_linear (hex_to_rgb c).2.2) k
      = relative_luminance c) ∧
    (1 < f →
      boost_saturation_preserve_luminance c f =
        rgb_to_hex
          (linear_to_channel (trCh (relative_luminance c)
            (channel_to_linear (hex_to_rgb c).1) (boostLow c f)))
          (linear_to_channel (trCh (relative_luminance c)
            (channel_to_linear (hex_to_rgb c).2.1) (boostLow c f)))
          (linear_to_channel (trCh (relative_luminance c)
            (channel_to_linear (hex_to_rgb c).2.2) (boostLow c f))) ∧
      boostGamutP c (boostLow c f) ∧
      ∃ kstar, IsGreatest {k : ℝ | k ∈ Set.Icc 1 f ∧ boostGamutP c k} kstar ∧
        kstar - (f - 1) / 2 ^ 20 ≤ boostLow c f ∧ boostLow c f ≤ kstar ∧
        ((f - 1) / 2 ^ 20 < 1 / 255 → kstar - boostLow c f < 1 / 255)) := by
  refine ⟨?_, ?_, ?_⟩
  · intro hf
    unfold boost_saturation_preserve_luminance
    rw [if_pos hf]
  · intro k
    unfold trCh
    have hy : relative_luminance c
        = 0.2126 * channel_to_linear (hex_to_rgb c).1
          + 0.7152 * channel_to_linear (hex_to_rgb c).2.1
          + 0.0722 * channel_to_linear (hex_to_rgb c).2.2 := rfl
    rw [hy]
    ring
  · intro hf
    have hP1 := boostGamutP_one hc
    have hScompact : IsCompact (Set.Icc (1 : ℝ) f ∩ {k : ℝ | boostGamutP c k}) :=
      isCompact_Icc.inter_right (boostGamutP_closed c)
    have hSeq : {k : ℝ | k ∈ Set.Icc 1 f ∧ boostGamutP c k}
        = Set.Icc (1 : ℝ) f ∩ {k : ℝ | boostGamutP c k} := by
      ext k
      simp [Set.mem_inter_iff, Set.mem_setOf_eq]
    have hSne : (Set.Icc (1 : ℝ) f ∩ {k : ℝ | boostGamutP c k}).Nonempty :=
      ⟨1, ⟨le_refl 1, hf.le⟩, hP1⟩
    obtain ⟨kstar, hks⟩ := hScompact.exists_isGreatest hSne
    have hks1 : 1 ≤ kstar := hks.2 ⟨⟨le_refl 1, hf.le⟩, hP1⟩
    have hksf : kstar ≤ f := hks.1.1.2
    have hPks : boostGamutP c kstar := hks.1.2
    have hiff : ∀ k, 1 ≤ k → k ≤ f → (boostGamutP c k ↔ k ≤ kstar) := by
      intro k hk1 hkf
      constructor
      · intro hPk
        exact hks.2 ⟨⟨hk1, hkf⟩, hPk⟩
      · intro hkk
        exact boostGamutP_down hc hk1 hkk hPks
    obtain ⟨s1, s2, s3, s4, s5, s6⟩ :=
      bsearch_spec hiff 20 1 f (le_refl 1) (le_refl f) hf hks1 (Or.inr rfl)
    have hlowdef : boostLow c f = (bsearch (boostGamutP c) 20 1 f).1 := rfl
    have hlowle : boostLow c f ≤ kstar := by
      rw [hlowdef]
      exact s2
    have hlowf : boostLow c f ≤ f := by
      rw [hlowdef]
      linarith
    have hlow1 : 1 ≤ boostLow c f := by
      rw [hlowdef]
      exact s1
    have hPlow : boostGamutP c (boostLow c f) :=
      (hiff _ hlow1 hlowf).mpr hlowle
    have hlowlb : kstar - (f - 1) / 2 ^ 20 ≤ boostLow c f := by
      rw [hlowdef]
      rcases s5 with h | h
      · linarith
      · rw [h] at s6
        linarith
    have hksS : IsGreatest {k : ℝ | k ∈ Set.Icc 1 f ∧ boostGamutP c k} kstar := by
      rw [hSeq]
      exact hks
    refine ⟨?_, hPlow, kstar, hksS, hlowlb, hlowle, fun hsm => by linarith⟩
    unfold boost_saturation_preserve_luminance
    rw [if_neg (not_le.mpr hf)]

theorem c5_boost_gamut_search_witness :
    isCanonHex "#000000" = true ∧ (1 : ℝ) < 1.35 ∧
    (boost_saturation_preserve_luminance "#000000" 1.35 =
        rgb_to_hex
          (linear_to_channel (trCh (relative_luminance "#000000")
            (channel_to_linear (hex_to_rgb "#000000").1) (boostLow "#000000" 1.35)))
          (linear_to_channel (trCh (relative_luminance "#000000")
            (channel_to_linear (hex_to_rgb "#000000").2.1) (boostLow "#000000" 1.35)))
          (linear_to_channel (trCh (relative_luminance "#000000")
            (channel_to_linear (hex_to_rgb "#000000").2.2) (boostLow "#000000" 1.35))) ∧
      boostGamutP "#000000" (boostLow "#000000" 1.35) ∧
      ∃ kstar, IsGreatest {k : ℝ | k ∈ Set.Icc 1 (1.35 : ℝ) ∧ boostGamutP "#000000" k} kstar ∧
        kstar - ((1.35 : ℝ) - 1) / 2 ^ 20 ≤ boostLow "#000000" 1.35 ∧
        boostLow "#000000" 1.35 ≤ kstar ∧
        (((1.35 : ℝ) - 1) / 2 ^ 20 < 1 / 255 →
          kstar - boostLow "#000000" 1.35 < 1 / 255)) :=
  ⟨by decide, by norm_num,
    (c5_boost_gamut_search "#000000" (by decide) 1.35).2.2 (by norm_num)⟩

lemma black_ch1 : channel_to_linear (hex_to_rgb "#000000").1 = 0 := by
  rw [show hex_to_rgb "#000000" = (0, 0, 0) from by decide]
  exact lin0

lemma black_ch2 : channel_to_linear (hex_to_rgb "#000000").2.1 = 0 := by
  rw [show hex_to_rgb "#000000" = (0, 0, 0) from by decide]
  exact lin0

lemma black_ch3 : channel_to_linear (hex_to_rgb "#000000").2.2 = 0 := by
  rw [show hex_to_rgb "#000000" = (0, 0, 0) from by decide]
  exact lin0

lemma boostGamutP_black : ∀ k : ℝ, boostGamutP "#000000" k := by
  intro k
  unfold boostGamutP trCh
  rw [lum_black, black_ch1, black_ch2, black_ch3]
  norm_num

/-- C5 counterexample: with color black and factor 2^20 + 1, every scale is
in gamut, the largest in-gamut scale over [1, factor] is the factor itself,
yet the 20-iteration bisection's low end stops a full unit below it — not
within 1/255 of the largest in-gamut k, refuting the claim's sub-1/255
precision for every factor above 1. -/
theorem c5_boost_gamut_search_counterexample :
    IsGreatest {k : ℝ | k ∈ Set.Icc 1 (1048577 : ℝ) ∧ boostGamutP "#000000" k}
      (1048577 : ℝ) ∧
    boostLow "#000000" 1048577 = 1048576 ∧
    ¬ ((1048577 : ℝ) - boostLow "#000000" 1048577 < 1 / 255) := by
  have hP := boostGamutP_black
  have hiff : ∀ k : ℝ, 1 ≤ k → k ≤ (1048577 : ℝ) →
      (boostGamutP "#000000" k ↔ k ≤ (1048577 : ℝ)) := by
    intro k h1 h2
    exact iff_of_true (hP k) h2
  obtain ⟨s1, s2, s3, s4, s5, s6⟩ :=
    bsearch_spec hiff 20 1 1048577 (le_refl 1) (le_refl _) (by norm_num) (by norm_num)
      (Or.inr rfl)
  have hhi : (bsearch (boostGamutP "#000000") 20 1 1048577).2 = 1048577 := by
    rcases s5 with h | h
    · exact absurd h (not_lt.mpr s4)
    · exact h
  have hlow : boostLow "#000000" 1048577 = 1048576 := by
    have hd : (bsearch (boostGamutP "#000000") 20 1 1048577).2
        - (bsearch (boostGamutP "#000000") 20 1 1048577).1
        = ((1048577 : ℝ) - 1) / 2 ^ 20 := s6
    rw [hhi] at hd
    have : ((1048577 : ℝ) - 1) / 2 ^ 20 = 1 := by norm_num
    rw [this] at hd
    show (bsearch (boostGamutP "#000000") 20 1 1048577).1 = 1048576
    linarith
  refine ⟨⟨⟨⟨by norm_num, le_refl _⟩, hP _⟩, fun k hk => hk.1.2⟩, hlow, ?_⟩
  rw [hlow]
  norm_num

/-! ### Concrete dark-pipeline evaluation on gray colors (for C1) -/

lemma lum_nonneg (c : String) : 0 ≤ relative_luminance c := by
  unfold relative_luminance
  have h1 := lin_nonneg (hex_to_rgb c).1
  have h2 := lin_nonneg (hex_to_rgb c).2.1
  have h3 := lin_nonneg (hex_to_rgb c).2.2
  linarith

lemma contrast_vs_black (c : String) :
    contrast_ratio c "#000000" = (relative_luminance c + 0.05) / (0 + 0.05) := by
  unfold contrast_ratio
  rw [lum_black, max_eq_left (lum_nonneg c), min_eq_right (lum_nonneg c)]

lemma ensureContrast_black_of_ge (c : String) (h : 0.125 ≤ relative_luminance c) :
    ensureContrast "#000000" c = c := by
  have hcc : ¬ (contrast_ratio c "#000000" < DARK_ACCENT_MIN_CONTRAST) := by
    rw [contrast_vs_black]
    unfold DARK_ACCENT_MIN_CONTRAST
    rw [not_lt, le_div_iff₀ (by norm_num)]
    linarith
  unfold ensureContrast
  rw [if_neg hcc]

lemma clampLum_of_le (c : String) (h : relative_luminance c ≤ 0.55) : clampLum c = c := by
  unfold clampLum DARK_ACCENT_MAX_LUMINANCE
  rw [if_neg (not_lt.mpr h)]

lemma clampLum_of_gt (c : String) (h : 0.55 < relative_luminance c) :
    clampLum c = scale_luminance c 0.55 := by
  unfold clampLum DARK_ACCENT_MAX_LUMINANCE
  rw [if_pos h]

lemma scaleTriple_gray (c : String) (n : ℕ) (hc : hex_to_rgb c = (n, n, n)) (t : ℝ)
    (hnz : channel_to_linear n ≠ 0) (ht1 : t ≤ 1) :
    scaleTriple c t = (t, t, t) := by
  have hln := relative_luminance_gray hc
  unfold scaleTriple scaleFactor
  simp only [hc]
  rw [hln]
  have key : channel_to_linear n * (t / channel_to_linear n) = t := by
    field_simp
  rw [key, max_self, max_self, if_neg (not_lt.mpr ht1), key]

lemma scale_gray_eval (c : String) (n : ℕ) (hc : hex_to_rgb c = (n, n, n)) (t : ℝ)
    (hlum : ¬ relative_luminance c < 0.001) (hnz : channel_to_linear n ≠ 0) (ht1 : t ≤ 1) :
    scale_luminance c t
      = rgb_to_hex (linear_to_channel t) (linear_to_channel t) (linear_to_channel t) := by
  unfold scale_luminance
  rw [if_neg hlum, scaleTriple_gray c n hc t hnz ht1]

lemma l2c_055 : linear_to_channel 0.55 = 196 :=
  l2c_byte 0.55 0.55 0.55 196 0.7795 0.7796 (le_refl _) (le_refl _) (by norm_num)
    (by norm_num) (by norm_num) (by norm_num) (by norm_num) (by norm_num) (by norm_num)
    (by norm_num)

lemma lum_bb : relative_luminance "#bbbbbb" = channel_to_linear 187 :=
  relative_luminance_gray (by decide)

lemma lum_dd : relative_luminance "#dddddd" = channel_to_linear 221 :=
  relative_luminance_gray (by decide)

lemma lum_c4 : relative_luminance "#c4c4c4" = channel_to_linear 196 :=
  relative_luminance_gray (by decide)

lemma darkAccent_white : darkAccent "#000000" "#ffffff" = "#c4c4c4" := by
  unfold darkAccent DARK_THEME_SATURATION_BOOST
  rw [boost_gray (le_refl 255) (show hex_to_rgb "#ffffff" = (255, 255, 255) from by decide)
    (by norm_num)]
  rw [show rgb_to_hex ((255 : ℕ) : ℤ) ((255 : ℕ) : ℤ) ((255 : ℕ) : ℤ) = "#ffffff" from by decide]
  rw [clampLum_of_gt _ (by rw [lum_white]; norm_num)]
  rw [scale_gray_eval "#ffffff" 255 (by decide) 0.55 (by rw [lum_white]; norm_num)
    (by rw [lin255]; norm_num) (by norm_num)]
  rw [l2c_055]
  rw [show rgb_to_hex (196 : ℤ) 196 196 = "#c4c4c4" from by decide]
  apply ensureContrast_black_of_ge
  rw [lum_c4]
  linarith [lin196_bounds.1]

lemma darkAccent_bb : darkAccent "#000000" "#bbbbbb" = "#bbbbbb" := by
  unfold darkAccent DARK_THEME_SATURATION_BOOST
  rw [boost_gray (by norm_num) (show hex_to_rgb "#bbbbbb" = (187, 187, 187) from by decide)
    (by norm_num)]
  rw [show rgb_to_hex ((187 : ℕ) : ℤ) ((187 : ℕ) : ℤ) ((187 : ℕ) : ℤ) = "#bbbbbb" from by decide]
  rw [clampLum_of_le _ (by rw [lum_bb]; linarith [lin187_bounds.2])]
  apply ensureContrast_black_of_ge
  rw [lum_bb]
  linarith [lin187_bounds.1]

lemma darkAccent_dd : darkAccent "#000000" "#dddddd" = "#c4c4c4" := by
  unfold darkAccent DARK_THEME_SATURATION_BOOST
  rw [boost_gray (by norm_num) (show hex_to_rgb "#dddddd" = (221, 221, 221) from by decide)
    (by norm_num)]
  rw [show rgb_to_hex ((221 : ℕ) : ℤ) ((221 : ℕ) : ℤ) ((221 : ℕ) : ℤ) = "#dddddd" from by decide]
  rw [clampLum_of_gt _ (by rw [lum_dd]; linarith [lin221_bounds.1])]
  rw [scale_gray_eval "#dddddd" 221 (by decide) 0.55
    (by rw [lum_dd]; push_neg; linarith [lin221_bounds.1])
    (by have := lin221_bounds.1; intro h0; rw [h0] at this; norm_num at this) (by norm_num)]
  rw [l2c_055]
  rw [show rgb_to_hex (196 : ℤ) 196 196 = "#c4c4c4" from by decide]
  apply ensureContrast_black_of_ge
  rw [lum_c4]
  linarith [lin196_bounds.1]

lemma applyAccent_black (c : String) :
    applyAccentPipeline "#000000" c = darkAccent "#000000" c := by
  unfold applyAccentPipeline
  rw [if_pos]
  rw [lum_black]
  unfold DARK_BACKGROUND_LUMINANCE_THRESHOLD
  norm_num

/-! ### Claim C1 -/

/-- C1 (amended): the emitted orange is always the dark-theme pipeline
applied to blend(red, yellow, 0.5) of the fallback-resolved
(pre-correction) red and yellow — it is never taken from any input slot —
and on a light background (no corrections) it therefore equals
blend(red, yellow, 0.5) of the final red and yellow. -/
theorem c1_orange_always_blend (p : GhosttyParsed) :
    (build_starship_palette p).lookup "color_orange"
      = some (applyAccentPipeline (rawBackground p) (blend (rawRed p) (rawYellow p) 0.5)) ∧
    (DARK_BACKGROUND_LUMINANCE_THRESHOLD ≤ relative_luminance (rawBackground p) →
      ∀ r y, (build_starship_palette p).lookup "color_red" = some r →
        (build_starship_palette p).lookup "color_yellow" = some y →
        (build_starship_palette p).lookup "color_orange" = some (blend r y 0.5)) := by
  constructor
  · rw [lookup_orange]
    rfl
  · intro hlight r y hr hy
    rw [lookup_red] at hr
    rw [lookup_yellow] at hy
    unfold finalRed at hr
    unfold finalYellow at hy
    rw [applyAccent_light hlight] at hr hy
    injection hr with hr
    injection hy with hy
    rw [lookup_orange]
    unfold finalOrange
    rw [applyAccent_light hlight]
    rw [← hr, ← hy]
    rfl

theorem c1_orange_always_blend_witness :
    DARK_BACKGROUND_LUMINANCE_THRESHOLD ≤ relative_luminance (rawBackground lightInput) ∧
    (build_starship_palette lightInput).lookup "color_orange"
      = some (blend "#cc241d" "#d79921" 0.5) := by
  have h : DARK_BACKGROUND_LUMINANCE_THRESHOLD
      ≤ relative_luminance (rawBackground lightInput) := by
    rw [show rawBackground lightInput = "#fbf1c7" from rfl]
    exact lin241_lum_ge
  refine ⟨h, ?_⟩
  have := (c1_orange_always_blend lightInput).2 h "#cc241d" "#d79921" ?_ ?_
  · exact this
  · rw [lookup_red]
    unfold finalRed
    rw [applyAccent_light h]
    rfl
  · rw [lookup_yellow]
    unfold finalYellow
    rw [applyAccent_light h]
    rfl

/-- The dark input refuting C1 as stated: black background, white red,
light-gray yellow. -/
def cxOr : GhosttyParsed :=
  ⟨none, some "#000000", none,
    fun i => if i = 1 then some "#ffffff" else if i = 3 then some "#bbbbbb" else none⟩

lemma blend_wb : blend "#ffffff" "#bbbbbb" 0.5 = "#dddddd" := by
  rw [blend_eval "#ffffff" "#bbbbbb" 255 255 255 187 187 187 0.5 221 221 221
    (by decide) (by decide)
    (by apply pyRound_eq_of <;> push_cast <;> norm_num)
    (by apply pyRound_eq_of <;> push_cast <;> norm_num)
    (by apply pyRound_eq_of <;> push_cast <;> norm_num)]
  decide

lemma blend_c4bb : blend "#c4c4c4" "#bbbbbb" 0.5 = "#c0c0c0" := by
  have hch : pyRound (((196 : ℕ) : ℝ) + (((187 : ℕ) : ℝ) - ((196 : ℕ) : ℝ)) * 0.5) = 192 := by
    rw [show ((196 : ℕ) : ℝ) + (((187 : ℕ) : ℝ) - ((196 : ℕ) : ℝ)) * 0.5 = 191.5 by
      push_cast; norm_num]
    exact pyRound_191_5
  rw [blend_eval "#c4c4c4" "#bbbbbb" 196 196 196 187 187 187 0.5 192 192 192
    (by decide) (by decide) hch hch hch]
  decide

/-- C1 counterexample: with a black background, white red and light-gray
yellow, the emitted orange is #c4c4c4 while blend of the emitted (final)
red #c4c4c4 and yellow #bbbbbb is #c0c0c0 — orange is not
blend(red, yellow, 0.5) of the final values. -/
theorem c1_orange_always_blend_counterexample :
    (build_starship_palette cxOr).lookup "color_red" = some "#c4c4c4" ∧
    (build_starship_palette cxOr).lookup "color_yellow" = some "#bbbbbb" ∧
    (build_starship_palette cxOr).lookup "color_orange" = some "#c4c4c4" ∧
    blend "#c4c4c4" "#bbbbbb" 0.5 = "#c0c0c0" ∧
    ("#c0c0c0" : String) ≠ "#c4c4c4" := by
  have hbg : rawBackground cxOr = "#000000" := rfl
  refine ⟨?_, ?_, ?_, blend_c4bb, by decide⟩
  · rw [lookup_red]
    unfold finalRed
    rw [hbg, show rawRed cxOr = "#ffffff" from rfl, applyAccent_black, darkAccent_white]
  · rw [lookup_yellow]
    unfold finalYellow
    rw [hbg, show rawYellow cxOr = "#bbbbbb" from rfl, applyAccent_black, darkAccent_bb]
  · rw [lookup_orange]
    unfold finalOrange
    rw [hbg, show rawOrange cxOr = blend "#ffffff" "#bbbbbb" 0.5 from rfl, blend_wb,
      applyAccent_black, darkAccent_dd]

/-! ### Claim C3: the dark pipeline on background 1d2021 and red cc241d -/

noncomputable section

lemma lum_1d2021_eq : relative_luminance "#1d2021"
    = 0.2126 * channel_to_linear 29 + 0.7152 * channel_to_linear 32
      + 0.0722 * channel_to_linear 33 := by
  unfold relative_luminance
  rw [show hex_to_rgb "#1d2021" = (29, 32, 33) from by decide]

lemma lum_bg3_bounds :
    (0.0140403990 : ℝ) < relative_luminance "#1d2021" ∧
      relative_luminance "#1d2021" < 0.0140403992 := by
  rw [lum_1d2021_eq]
  constructor
  · linarith [lin29_bounds.1, lin32_bounds.1, lin33_bounds.1]
  · linarith [lin29_bounds.2, lin32_bounds.2, lin33_bounds.2]

lemma lum_cc241d_eq : relative_luminance "#cc241d"
    = 0.2126 * channel_to_linear 204 + 0.7152 * channel_to_linear 36
      + 0.0722 * channel_to_linear 29 := by
  unfold relative_luminance
  rw [show hex_to_rgb "#cc241d" = (204, 36, 29) from by decide]

lemma lum_red3_bounds :
    (0.1418783024 : ℝ) < relative_luminance "#cc241d" ∧
      relative_luminance "#cc241d" < 0.1418783026 := by
  rw [lum_cc241d_eq]
  constructor
  · linarith [lin204_bounds.1, lin36_bounds.1, lin29_bounds.1]
  · linarith [lin204_bounds.2, lin36_bounds.2, lin29_bounds.2]

lemma red_ch1 : channel_to_linear (hex_to_rgb "#cc241d").1 = channel_to_linear 204 := by
  rw [show hex_to_rgb "#cc241d" = (204, 36, 29) from by decide]

lemma red_ch2 : channel_to_linear (hex_to_rgb "#cc241d").2.1 = channel_to_linear 36 := by
  rw [show hex_to_rgb "#cc241d" = (204, 36, 29) from by decide]

lemma red_ch3 : channel_to_linear (hex_to_rgb "#cc241d").2.2 = channel_to_linear 29 := by
  rw [show hex_to_rgb "#cc241d" = (204, 36, 29) from by decide]

/-- The largest in-gamut boost scale for cc241d: the scale at which the
blue channel's transform reaches zero. -/
def kstarRed : ℝ :=
  relative_luminance "#cc241d" / (relative_luminance "#cc241d" - channel_to_linear 29)

lemma kstarRed_den_pos : 0 < relative_luminance "#cc241d" - channel_to_linear 29 := by
  linarith [lum_red3_bounds.1, lin29_bounds.2]

lemma kstarRed_bounds : (1.0948091380 : ℝ) < kstarRed ∧ kstarRed < 1.0948091405 := by
  unfold kstarRed
  constructor
  · rw [lt_div_iff₀ kstarRed_den_pos]
    nlinarith [lum_red3_bounds.1, lum_red3_bounds.2, lin29_bounds.1, lin29_bounds.2]
  · rw [div_lt_iff₀ kstarRed_den_pos]
    nlinarith [lum_red3_bounds.1, lum_red3_bounds.2, lin29_bounds.1, lin29_bounds.2]

lemma red_gamut_iff : ∀ k : ℝ, 1 ≤ k → k ≤ 1.35 →
    (boostGamutP "#cc241d" k ↔ k ≤ kstarRed) := by
  intro k h1 h2
  have hy1 := lum_red3_bounds.1
  have hy2 := lum_red3_bounds.2
  have h29 := lin29_bounds
  have h36 := lin36_bounds
  have h204 := lin204_bounds
  have hden := kstarRed_den_pos
  unfold boostGamutP trCh
  rw [red_ch1, red_ch2, red_ch3]
  unfold kstarRed
  constructor
  · rintro ⟨-, -, hb0, -⟩
    rw [le_div_iff₀ hden]
    nlinarith
  · intro hk
    rw [le_div_iff₀ hden] at hk
    have hk0 : (0 : ℝ) ≤ k := by linarith
    refine ⟨⟨?_, ?_⟩, ⟨?_, ?_⟩, ⟨?_, ?_⟩⟩
    · nlinarith [mul_nonneg (by linarith : (0 : ℝ) ≤ k - 1)
        (by linarith : (0 : ℝ) ≤ channel_to_linear 204 - relative_luminance "#cc241d")]
    · nlinarith [mul_nonneg (by linarith : (0 : ℝ) ≤ 1.35 - k)
        (by linarith : (0 : ℝ) ≤ channel_to_linear 204 - relative_luminance "#cc241d")]
    · nlinarith [mul_nonneg hk0
        (by linarith : (0 : ℝ) ≤ channel_to_linear 36 - channel_to_linear 29)]
    · nlinarith [mul_nonneg hk0
        (by linarith : (0 : ℝ) ≤ relative_luminance "#cc241d" - channel_to_linear 36)]
    · nlinarith
    · nlinarith [mul_nonneg hk0
        (by linarith : (0 : ℝ) ≤ relative_luminance "#cc241d" - channel_to_linear 29)]

lemma boostLowRed_facts :
    boostLow "#cc241d" 1.35 ≤ kstarRed ∧
    kstarRed - 0.35 / 2 ^ 20 ≤ boostLow "#cc241d" 1.35 ∧
    boostGamutP "#cc241d" (boostLow "#cc241d" 1.35) ∧
    1 ≤ boostLow "#cc241d" 1.35 := by
  have hks := kstarRed_bounds
  obtain ⟨s1, s2, s3, s4, s5, s6⟩ :=
    bsearch_spec red_gamut_iff 20 1 1.35 (le_refl 1) (le_refl _) (by norm_num)
      (by linarith) (Or.inr rfl)
  have hlowdef : boostLow "#cc241d" 1.35 = (bsearch (boostGamutP "#cc241d") 20 1 1.35).1 := rfl
  have hlb : kstarRed - 0.35 / 2 ^ 20 ≤ boostLow "#cc241d" 1.35 := by
    rw [hlowdef]
    rcases s5 with h | h
    · have hd : (1.35 - 1 : ℝ) / 2 ^ 20 = 0.35 / 2 ^ 20 := by norm_num
      rw [hd] at s6
      linarith
    · rw [h] at s6
      have hd : (1.35 - 1 : ℝ) / 2 ^ 20 = 0.35 / 2 ^ 20 := by norm_num
      rw [hd] at s6
      linarith
  refine ⟨by rw [hlowdef]; exact s2, hlb, ?_, by rw [hlowdef]; exact s1⟩
  have hle135 : boostLow "#cc241d" 1.35 ≤ 1.35 := by
    rw [hlowdef]
    linarith
  exact (red_gamut_iff _ (by rw [hlowdef]; exact s1) hle135).mpr (by rw [hlowdef]; exact s2)

lemma c3_u_bounds :
    (0.4619490362 : ℝ) ≤ channel_to_linear 204 - relative_luminance "#cc241d" ∧
    channel_to_linear 204 - relative_luminance "#cc241d" ≤ 0.4619490365 :=
  ⟨by linarith [lin204_bounds.1, lum_red3_bounds.2],
   by linarith [lin204_bounds.2, lum_red3_bounds.1]⟩

lemma c3_w_bounds :
    (0.1242363479 : ℝ) ≤ relative_luminance "#cc241d" - channel_to_linear 36 ∧
    relative_luminance "#cc241d" - channel_to_linear 36 ≤ 0.1242363482 :=
  ⟨by linarith [lum_red3_bounds.1, lin36_bounds.2],
   by linarith [lum_red3_bounds.2, lin36_bounds.1]⟩

lemma c3_L_bounds :
    (1.0948091380 - 0.35 / 2 ^ 20 : ℝ) < boostLow "#cc241d" 1.35 ∧
    boostLow "#cc241d" 1.35 < 1.0948091405 ∧ 1 ≤ boostLow "#cc241d" 1.35 := by
  obtain ⟨hle, hlb, -, h1⟩ := boostLowRed_facts
  have hks := kstarRed_bounds
  exact ⟨by linarith, by linarith, h1⟩

lemma trR_bounds :
    (0.6476241740 : ℝ) <
      trCh (relative_luminance "#cc241d") (channel_to_linear 204) (boostLow "#cc241d" 1.35) ∧
    trCh (relative_luminance "#cc241d") (channel_to_linear 204) (boostLow "#cc241d" 1.35)
      < 0.6476243310 := by
  obtain ⟨hL1, hL2, hL0⟩ := c3_L_bounds
  have hy := lum_red3_bounds
  have hu := c3_u_bounds
  have hp1 : (0.4619490362 : ℝ) * (1.0948091380 - 0.35 / 2 ^ 20) ≤
      (channel_to_linear 204 - relative_luminance "#cc241d") * boostLow "#cc241d" 1.35 :=
    mul_le_mul hu.1 hL1.le (by norm_num) (by linarith)
  have hp2 : (channel_to_linear 204 - relative_luminance "#cc241d") * boostLow "#cc241d" 1.35
      ≤ 0.4619490365 * 1.0948091405 :=
    mul_le_mul hu.2 hL2.le (by linarith) (by norm_num)
  unfold trCh
  constructor
  · nlinarith
  · nlinarith

lemma trG_bounds :
    (0.00586321 : ℝ) <
      trCh (relative_luminance "#cc241d") (channel_to_linear 36) (boostLow "#cc241d" 1.35) ∧
    trCh (relative_luminance "#cc241d") (channel_to_linear 36) (boostLow "#cc241d" 1.35)
      < 0.00586326 := by
  obtain ⟨hL1, hL2, hL0⟩ := c3_L_bounds
  have hy := lum_red3_bounds
  have hw := c3_w_bounds
  have hp1 : (0.1242363479 : ℝ) * (1.0948091380 - 0.35 / 2 ^ 20) ≤
      (relative_luminance "#cc241d" - channel_to_linear 36) * boostLow "#cc241d" 1.35 :=
    mul_le_mul hw.1 hL1.le (by norm_num) (by linarith)
  have hp2 : (relative_luminance "#cc241d" - channel_to_linear 36) * boostLow "#cc241d" 1.35
      ≤ 0.1242363482 * 1.0948091405 :=
    mul_le_mul hw.2 hL2.le (by linarith) (by norm_num)
  unfold trCh
  constructor
  · nlinarith
  · nlinarith

lemma trB_bounds :
    0 ≤ trCh (relative_luminance "#cc241d") (channel_to_linear 29) (boostLow "#cc241d" 1.35) ∧
    trCh (relative_luminance "#cc241d") (channel_to_linear 29) (boostLow "#cc241d" 1.35)
      * 12.92 * 255 < 1 / 2 := by
  obtain ⟨hle, hlb, hP, h1⟩ := boostLowRed_facts
  have hy := lum_red3_bounds
  have h29 := lin29_bounds
  constructor
  · unfold boostGamutP at hP
    rw [red_ch1, red_ch2, red_ch3] at hP
    exact hP.2.2.1
  · have hkseq : kstarRed * (relative_luminance "#cc241d" - channel_to_linear 29)
        = relative_luminance "#cc241d" := by
      unfold kstarRed
      exact div_mul_cancel₀ _ kstarRed_den_pos.ne'
    have hrepr : trCh (relative_luminance "#cc241d") (channel_to_linear 29)
        (boostLow "#cc241d" 1.35)
        = (relative_luminance "#cc241d" - channel_to_linear 29)
          * (kstarRed - boostLow "#cc241d" 1.35) := by
      unfold trCh
      rw [mul_sub, mul_comm (relative_luminance "#cc241d" - channel_to_linear 29) kstarRed,
        hkseq]
      ring
    rw [hrepr]
    have hdks : kstarRed - boostLow "#cc241d" 1.35 ≤ 0.35 / 2 ^ 20 := by linarith
    have hdpos : 0 ≤ kstarRed - boostLow "#cc241d" 1.35 := by linarith
    have hyl : relative_luminance "#cc241d" - channel_to_linear 29 ≤ 0.1295918143 := by
      linarith
    have hprod : (relative_luminance "#cc241d" - channel_to_linear 29)
        * (kstarRed - boostLow "#cc241d" 1.35) ≤ 0.1295918143 * (0.35 / 2 ^ 20) :=
      mul_le_mul hyl hdks hdpos (by norm_num)
    nlinarith

lemma trB_le_threshold :
    trCh (relative_luminance "#cc241d") (channel_to_linear 29) (boostLow "#cc241d" 1.35)
      ≤ 0.0031308 := by
  have h := trB_bounds.2
  nlinarith

lemma byteR_eval :
    linear_to_channel (trCh (relative_luminance "#cc241d") (channel_to_linear 204)
      (boostLow "#cc241d" 1.35)) = 210 :=
  l2c_byte _ 0.6476241740 0.6476243310 210 0.834418 0.834422 trR_bounds.1.le trR_bounds.2.le
    (by norm_num) (by norm_num) (by norm_num) (by norm_num) (by norm_num) (by norm_num)
    (by norm_num) (by norm_num)

lemma byteG_eval :
    linear_to_channel (trCh (relative_luminance "#cc241d") (channel_to_linear 36)
      (boostLow "#cc241d" 1.35)) = 18 :=
  l2c_byte _ 0.00586321 0.00586326 18 0.1174 0.1176 trG_bounds.1.le trG_bounds.2.le
    (by norm_num) (by norm_num) (by norm_num) (by norm_num) (by norm_num) (by norm_num)
    (by norm_num) (by norm_num)

lemma byteB_eval :
    linear_to_channel (trCh (relative_luminance "#cc241d") (channel_to_linear 29)
      (boostLow "#cc241d" 1.35)) = 0 :=
  l2c_zero _ trB_bounds.1 trB_bounds.2

lemma boost_red_eval : boost_saturation_preserve_luminance "#cc241d" 1.35 = "#d21200" := by
  unfold boost_saturation_preserve_luminance
  rw [if_neg (by norm_num)]
  rw [red_ch1, red_ch2, red_ch3]
  rw [byteR_eval, byteG_eval, byteB_eval]
  decide

lemma d21200_ch1 : channel_to_linear (hex_to_rgb "#d21200").1 = channel_to_linear 210 := by
  rw [show hex_to_rgb "#d21200" = (210, 18, 0) from by decide]

lemma d21200_ch2 : channel_to_linear (hex_to_rgb "#d21200").2.1 = channel_to_linear 18 := by
  rw [show hex_to_rgb "#d21200" = (210, 18, 0) from by decide]

lemma d21200_ch3 : channel_to_linear (hex_to_rgb "#d21200").2.2 = 0 := by
  rw [show hex_to_rgb "#d21200" = (210, 18, 0) from by decide, lin0]

lemma lum_d21200_eq : relative_luminance "#d21200"
    = 0.2126 * channel_to_linear 210 + 0.7152 * channel_to_linear 18 := by
  unfold relative_luminance
  rw [show hex_to_rgb "#d21200" = (210, 18, 0) from by decide, lin0]
  ring

lemma cur_bounds :
    (0.1413425057 : ℝ) < relative_luminance "#d21200" ∧
      relative_luminance "#d21200" < 0.1413425059 := by
  rw [lum_d21200_eq]
  constructor
  · linarith [lin210_bounds.1, lin18_bounds.1]
  · linarith [lin210_bounds.2, lin18_bounds.2]

lemma contrast_ratio_eval (a b : String)
    (h : relative_luminance b ≤ relative_luminance a) :
    contrast_ratio a b
      = (relative_luminance a + 0.05) / (relative_luminance b + 0.05) := by
  unfold contrast_ratio
  rw [max_eq_left h, min_eq_right h]

lemma c3_t_bounds :
    (0.1741413965 : ℝ) < 3.5 * (relative_luminance "#1d2021" + 0.05) - 0.05 ∧
    3.5 * (relative_luminance "#1d2021" + 0.05) - 0.05 < 0.1741413972 := by
  have h := lum_bg3_bounds
  constructor
  · linarith
  · linarith

lemma ensure_d21200 : ensureContrast "#1d2021" "#d21200"
    = scale_luminance "#d21200" (3.5 * (relative_luminance "#1d2021" + 0.05) - 0.05) := by
  have hbg := lum_bg3_bounds
  have hcur := cur_bounds
  have hord : relative_luminance "#1d2021" ≤ relative_luminance "#d21200" := by linarith
  have hcond : contrast_ratio "#d21200" "#1d2021" < DARK_ACCENT_MIN_CONTRAST := by
    unfold DARK_ACCENT_MIN_CONTRAST
    rw [contrast_ratio_eval _ _ hord, div_lt_iff₀ (by linarith)]
    linarith
  have hmax : max (DARK_ACCENT_MIN_CONTRAST * (relative_luminance "#1d2021" + 0.05) - 0.05)
      0.15 = 3.5 * (relative_luminance "#1d2021" + 0.05) - 0.05 := by
    unfold DARK_ACCENT_MIN_CONTRAST
    exact max_eq_left (by linarith [c3_t_bounds.1])
  unfold ensureContrast
  rw [if_pos hcond, hmax]

lemma mul_div_bounds (a b c X Y : ℝ) (hc : 0 < c)
    (hX : X * c < a * b) (hY : a * b < Y * c) :
    X < a * (b / c) ∧ a * (b / c) < Y := by
  rw [← mul_div_assoc]
  exact ⟨(lt_div_iff₀ hc).mpr hX, (div_lt_iff₀ hc).mpr hY⟩

lemma xr_bounds :
    (0.7940328425 : ℝ) < channel_to_linear 210
        * ((3.5 * (relative_luminance "#1d2021" + 0.05) - 0.05)
            / relative_luminance "#d21200") ∧
    channel_to_linear 210
        * ((3.5 * (relative_luminance "#1d2021" + 0.05) - 0.05)
            / relative_luminance "#d21200")
      < 0.7940328482 := by
  have ht := c3_t_bounds
  have hcur := cur_bounds
  have hl := lin210_bounds
  have hcpos : (0 : ℝ) < relative_luminance "#d21200" := by linarith
  have hp1 : (0.6444796819 : ℝ) * 0.1741413965
      ≤ channel_to_linear 210 * (3.5 * (relative_luminance "#1d2021" + 0.05) - 0.05) :=
    mul_le_mul hl.1.le ht.1.le (by norm_num) (by linarith)
  have hp2 : channel_to_linear 210 * (3.5 * (relative_luminance "#1d2021" + 0.05) - 0.05)
      ≤ 0.6444796820 * 0.1741413972 :=
    mul_le_mul hl.2.le ht.2.le (by linarith) (by norm_num)
  exact mul_div_bounds _ _ _ _ _ hcpos (by linarith) (by linarith)

lemma xg_bounds :
    (0.0074524801 : ℝ) < channel_to_linear 18
        * ((3.5 * (relative_luminance "#1d2021" + 0.05) - 0.05)
            / relative_luminance "#d21200") ∧
    channel_to_linear 18
        * ((3.5 * (relative_luminance "#1d2021" + 0.05) - 0.05)
            / relative_luminance "#d21200")
      < 0.0074524805 := by
  have ht := c3_t_bounds
  have hcur := cur_bounds
  have hl := lin18_bounds
  have hcpos : (0 : ℝ) < relative_luminance "#d21200" := by linarith
  have hp1 : (0.0060488330 : ℝ) * 0.1741413965
      ≤ channel_to_linear 18 * (3.5 * (relative_luminance "#1d2021" + 0.05) - 0.05) :=
    mul_le_mul hl.1.le ht.1.le (by norm_num) (by linarith)
  have hp2 : channel_to_linear 18 * (3.5 * (relative_luminance "#1d2021" + 0.05) - 0.05)
      ≤ 0.0060488331 * 0.1741413972 :=
    mul_le_mul hl.2.le ht.2.le (by linarith) (by norm_num)
  exact mul_div_bounds _ _ _ _ _ hcpos (by linarith) (by linarith)

lemma byteXR_eval :
    linear_to_channel (channel_to_linear 210
      * ((3.5 * (relative_luminance "#1d2021" + 0.05) - 0.05)
          / relative_luminance "#d21200")) = 230 :=
  l2c_byte _ 0.7940328425 0.7940328482 230 0.908376 0.908378 xr_bounds.1.le xr_bounds.2.le
    (by norm_num) (by norm_num) (by norm_num) (by norm_num) (by norm_num) (by norm_num)
    (by norm_num) (by norm_num)

lemma byteXG_eval :
    linear_to_channel (channel_to_linear 18
      * ((3.5 * (relative_luminance "#1d2021" + 0.05) - 0.05)
          / relative_luminance "#d21200")) = 21 :=
  l2c_byte _ 0.0074524801 0.0074524805 21 0.1297 0.1300 xg_bounds.1.le xg_bounds.2.le
    (by norm_num) (by norm_num) (by norm_num) (by norm_num) (by norm_num) (by norm_num)
    (by norm_num) (by norm_num)

lemma scaleTriple_d21200 :
    scaleTriple "#d21200" (3.5 * (relative_luminance "#1d2021" + 0.05) - 0.05)
      = (channel_to_linear 210
          * ((3.5 * (relative_luminance "#1d2021" + 0.05) - 0.05)
              / relative_luminance "#d21200"),
         channel_to_linear 18
          * ((3.5 * (relative_luminance "#1d2021" + 0.05) - 0.05)
              / relative_luminance "#d21200"),
         0) := by
  have hxr := xr_bounds
  have hxg := xg_bounds
  unfold scaleTriple scaleFactor
  rw [d21200_ch1, d21200_ch2, d21200_ch3, zero_mul]
  rw [if_neg (not_lt.mpr (max_le (max_le (by linarith) (by linarith)) (by norm_num)))]
  rw [zero_mul]

lemma scale_d21200 :
    scale_luminance "#d21200" (3.5 * (relative_luminance "#1d2021" + 0.05) - 0.05)
      = "#e61500" := by
  have hcur := cur_bounds
  unfold scale_luminance
  rw [if_neg (not_lt.mpr (by linarith)), scaleTriple_d21200]
  show rgb_to_hex
      (linear_to_channel (channel_to_linear 210
        * ((3.5 * (relative_luminance "#1d2021" + 0.05) - 0.05)
            / relative_luminance "#d21200")))
      (linear_to_channel (channel_to_linear 18
        * ((3.5 * (relative_luminance "#1d2021" + 0.05) - 0.05)
            / relative_luminance "#d21200")))
      (linear_to_channel 0) = "#e61500"
  rw [byteXR_eval, byteXG_eval, l2c_zero 0 le_rfl (by norm_num)]
  decide

lemma darkAccent_red : darkAccent "#1d2021" "#cc241d" = "#e61500" := by
  unfold darkAccent DARK_THEME_SATURATION_BOOST
  rw [boost_red_eval, clampLum_of_le _ (by linarith [cur_bounds.2]), ensure_d21200,
    scale_d21200]

/-- A parsed Ghostty configuration with the dark background #1d2021 and the
Gruvbox red #cc241d in palette slot 1. -/
def cxC3 : GhosttyParsed :=
  ⟨none, some "#1d2021", none, fun i => if i = 1 then some "#cc241d" else none⟩

lemma cxC3_red_lookup :
    (build_starship_palette cxC3).lookup "color_red" = some "#e61500" := by
  rw [lookup_red]
  unfold finalRed
  rw [show rawBackground cxC3 = "#1d2021" from rfl, show rawRed cxC3 = "#cc241d" from rfl]
  unfold applyAccentPipeline DARK_BACKGROUND_LUMINANCE_THRESHOLD
  rw [if_pos (by linarith [lum_bg3_bounds.2]), darkAccent_red]

lemma lum_e61500_eq : relative_luminance "#e61500"
    = 0.2126 * channel_to_linear 230 + 0.7152 * channel_to_linear 21 := by
  unfold relative_luminance
  rw [show hex_to_rgb "#e61500" = (230, 21, 0) from by decide, lin0]
  ring

lemma lumF_bounds :
    (0.1735932497 : ℝ) < relative_luminance "#e61500" ∧
      relative_luminance "#e61500" < 0.1735932500 := by
  rw [lum_e61500_eq]
  constructor
  · linarith [lin230_bounds.1, lin21_bounds.1]
  · linarith [lin230_bounds.2, lin21_bounds.2]

/-! ### Claim C3 -/

/-- C3 (amended): with background #1d2021 — luminance below the 0.26 dark
threshold, and a contrast target 3.5*(bg_lum+0.05)-0.05 that is not floored
at 0.15 — and accent red #cc241d, the dark-theme pipeline emits the red
#e61500, whose relative luminance is at most 0.55 and whose contrast ratio
against the background is at least 3.49, the byte re-encoding of the
rescaled channels leaving it marginally below the 3.5 goal. -/
theorem c3_dark_pipeline_red :
    relative_luminance "#1d2021" < DARK_BACKGROUND_LUMINANCE_THRESHOLD ∧
    0.15 ≤ DARK_ACCENT_MIN_CONTRAST * (relative_luminance "#1d2021" + 0.05) - 0.05 ∧
    (build_starship_palette cxC3).lookup "color_red" = some "#e61500" ∧
    relative_luminance "#e61500" ≤ DARK_ACCENT_MAX_LUMINANCE ∧
    3.49 ≤ contrast_ratio "#e61500" "#1d2021" := by
  have hbg := lum_bg3_bounds
  have hf := lumF_bounds
  have ht := c3_t_bounds
  refine ⟨?_, ?_, cxC3_red_lookup, ?_, ?_⟩
  · unfold DARK_BACKGROUND_LUMINANCE_THRESHOLD
    linarith
  · unfold DARK_ACCENT_MIN_CONTRAST
    linarith
  · unfold DARK_ACCENT_MAX_LUMINANCE
    linarith
  · rw [contrast_ratio_eval _ _ (by linarith), le_div_iff₀ (by linarith)]
    linarith

/-- C3 counterexample: on the very instance the claim describes —
background #1d2021, accent red #cc241d, contrast target above the 0.15
floor — the emitted red is #e61500 and its contrast ratio against the
background is strictly below the required 3.5. -/
theorem c3_counterexample :
    relative_luminance "#1d2021" < DARK_BACKGROUND_LUMINANCE_THRESHOLD ∧
    0.15 ≤ DARK_ACCENT_MIN_CONTRAST * (relative_luminance "#1d2021" + 0.05) - 0.05 ∧
    (build_starship_palette cxC3).lookup "color_red" = some "#e61500" ∧
    contrast_ratio "#e61500" "#1d2021" < DARK_ACCENT_MIN_CONTRAST := by
  have hbg := lum_bg3_bounds
  have hf := lumF_bounds
  refine ⟨?_, ?_, cxC3_red_lookup, ?_⟩
  · unfold DARK_BACKGROUND_LUMINANCE_THRESHOLD
    linarith
  · unfold DARK_ACCENT_MIN_CONTRAST
    linarith [c3_t_bounds.1]
  · unfold DARK_ACCENT_MIN_CONTRAST
    rw [contrast_ratio_eval _ _ (by linarith), div_lt_iff₀ (by linarith)]
    linarith
